import Mathlib

/-!
# Verification of the social-story-generator procedural-art pipeline

Shallow embedding of the deterministic procedural-art core of the
`room302studio/social-story-generator` repository:

* the two rolling string hashes (`src/lib/utils.js` and `src/generate.js`),
* the Perlin-noise engine of `src/lib/pixel-glitch.js` (`PerlinNoise`),
* the pixel-glitch pipeline (`applyGlitchEffects` and its filters),
* the constellation generator of `src/generate.js`,
* the color perturbation function `glitchColor`.

Modelling conventions:

* JavaScript strings are `List Nat` of UTF-16 code units (`charCodeAt`
  values, always `< 2 ^ 16`).
* JavaScript double arithmetic is modelled by exact `Rat` arithmetic.  The
  decimal literals of the source (`1.2`, `0.05`, ...) denote the exact
  rationals written in the source text.  All properties proved here are
  robust to this idealization.
* 32-bit integer coercions (`x | 0`, `<< 5`, `& mask`) are modelled
  explicitly with `toInt32` / `land32` below.
* The external `chance.js` PRNG is modelled as an explicit record of pure
  draw functions (`ChanceGen`): the n-th draw of a seeded instance is a
  function of the seed and the draw index (tick).  `chance.bool` is
  modelled through `random()` exactly as in chance.js
  (`random() * 100 < likelihood`).  Every concrete execution of the real
  library is an instance of some `ChanceGen`; `ChanceGen.Valid` states the
  range guarantees documented for the library.
* The external NLP tagger (`compromise`) and color library (`chroma-js`)
  are likewise modelled as records of pure functions, universally
  quantified in the theorems; `chroma.random()` (which is backed by the
  unseeded `Math.random`) is modelled as an ambient stream `Nat → C`
  supplied per call.
-/

namespace SocialStory

set_option maxRecDepth 4000

/- Batteries marks the `Rat` field operations `[irreducible]`, which blocks
`decide`-style evaluation of concrete rational arithmetic; restore the
default transparency locally (this does not change any definition). -/
attribute [local semireducible] Rat.add Rat.mul Rat.sub Rat.inv Rat.ofScientific

/-! ## JavaScript 32-bit integer primitives -/

/-- JS `ToUint32`: the representative of `n` modulo `2^32` in `[0, 2^32)`. -/
def toUint32 (n : Int) : Int := n % 4294967296

/-- JS `ToInt32`: two's-complement reinterpretation of `n` as a signed
32-bit integer (this is what `x & x`, `x | 0` and shift operands go
through). -/
def toInt32 (n : Int) : Int :=
  if toUint32 n < 2147483648 then toUint32 n else toUint32 n - 4294967296

/-- JS 32-bit bitwise AND `a & b`: both operands are converted with
`ToInt32` (equivalently: their `ToUint32` bit patterns are ANDed) and the
result is read back as a signed 32-bit integer. -/
def land32 (a b : Int) : Int :=
  if (((toUint32 a).toNat &&& (toUint32 b).toNat : Nat) : Int) < 2147483648
  then (((toUint32 a).toNat &&& (toUint32 b).toNat : Nat) : Int)
  else (((toUint32 a).toNat &&& (toUint32 b).toNat : Nat) : Int) - 4294967296

/-- JS `Math.round` (round half toward `+∞`). -/
def jsRound (q : Rat) : Int := ⌊q + 1 / 2⌋

/-- Truncation toward zero, as used by the JS `%` operator on doubles. -/
def ratTrunc (q : Rat) : Int := if 0 ≤ q then ⌊q⌋ else ⌈q⌉

/-- JS `%` on doubles: `a - b * trunc (a / b)`. -/
def jsMod (a b : Rat) : Rat := a - b * (ratTrunc (a / b) : Rat)

/-- JS `Uint8Array` element store coercion (`ToUint8`: wrap modulo 256). -/
def toByte (n : Int) : Nat := (n % 256).toNat

/-! ## The two `hashString` implementations

`src/lib/utils.js` lines 8–14:
```js
function hashString(str) {
  let hash = 0;
  for (let i = 0; i < str.length; i++) {
    hash = ((hash << 5) - hash + str.charCodeAt(i)) & 0x7fffffff;
  }
  return Math.abs(hash);
}
```

`src/generate.js` lines 41–49:
```js
function hashString(str) {
  let hash = 0;
  for (let i = 0; i < str.length; i++) {
    const char = str.charCodeAt(i);
    hash = ((hash << 5) - hash) + char;
    hash = hash & hash; // Convert to 32-bit integer
  }
  return Math.abs(hash);
}
```

In both, `hash << 5` is `toInt32 (hash * 32)` (the shift converts its left
operand with `ToInt32`, and the accumulator is always a 32-bit value at
that point), the additive arithmetic is exact double arithmetic, and the
final masking differs: `& 0x7fffffff` versus `& hash` (= `ToInt32`). -/

/-- One loop iteration of the `utils.js` hash. -/
def hashStepUtils (h : Int) (c : Nat) : Int :=
  land32 (toInt32 (h * 32) - h + c) 0x7fffffff

/-- `hashString` of `src/lib/utils.js` on a list of UTF-16 code units. -/
def hashStringUtils (s : List Nat) : Int :=
  |s.foldl hashStepUtils 0|

/-- One loop iteration of the `generate.js` hash. -/
def hashStepGen (h : Int) (c : Nat) : Int :=
  toInt32 (toInt32 (h * 32) - h + c)

/-- `hashString` of `src/generate.js` on a list of UTF-16 code units. -/
def hashStringGen (s : List Nat) : Int :=
  |s.foldl hashStepGen 0|

/-! ### Arithmetic characterization of the two steps -/

theorem toUint32_nonneg (n : Int) : 0 ≤ toUint32 n :=
  Int.emod_nonneg n (by norm_num)

theorem toUint32_lt (n : Int) : toUint32 n < 4294967296 :=
  Int.emod_lt_of_pos n (by norm_num)

theorem toUint32_emod (n : Int) : toUint32 n % 4294967296 = n % 4294967296 :=
  Int.emod_emod_of_dvd n dvd_rfl

/-- `toUint32` of a value congruent to `x` with `0 ≤ x < 2^32` is `x`. -/
theorem toUint32_eq_of_emod {n x : Int} (h : n % 4294967296 = x % 4294967296)
    (h0 : 0 ≤ x) (h1 : x < 4294967296) : toUint32 n = x := by
  unfold toUint32
  rw [h, Int.emod_eq_of_lt h0 h1]

theorem toInt32_emod (n : Int) : toInt32 n % 4294967296 = n % 4294967296 := by
  unfold toInt32
  split
  · exact toUint32_emod n
  · rw [Int.sub_emod, Int.emod_self, sub_zero, Int.emod_emod_of_dvd _ dvd_rfl,
      toUint32_emod]

/-- `toInt32` of a value congruent to `x` with `0 ≤ x < 2^31` is `x`. -/
theorem toInt32_eq_of_emod {n x : Int} (h : n % 4294967296 = x % 4294967296)
    (h0 : 0 ≤ x) (h1 : x < 2147483648) : toInt32 n = x := by
  unfold toInt32
  have hu : toUint32 n = x := toUint32_eq_of_emod h h0 (by omega)
  rw [hu, if_pos h1]

/-- The masking step of the `utils.js` hash is reduction modulo `2^31`. -/
theorem land32_mask (n : Int) : land32 n 0x7fffffff = n % 2147483648 := by
  unfold land32
  have h0 : (0 : Int) ≤ toUint32 n := toUint32_nonneg n
  have hm : (toUint32 2147483647).toNat = 2 ^ 31 - 1 := by decide
  rw [hm, Nat.and_pow_two_sub_one_eq_mod]
  have hlt : (((toUint32 n).toNat % 2 ^ 31 : Nat) : Int) < 2147483648 := by
    have := Nat.mod_lt (toUint32 n).toNat (y := 2 ^ 31) (by norm_num)
    omega
  rw [if_pos hlt]
  have hcast : (((toUint32 n).toNat % 2 ^ 31 : Nat) : Int)
      = toUint32 n % 2147483648 := by
    push_cast [Int.toNat_of_nonneg h0]
    norm_num
  rw [hcast]
  unfold toUint32
  exact Int.emod_emod_of_dvd n (by norm_num)

/-- When no 31-bit overflow occurs, both hash steps compute `31 * h + c`. -/
theorem hashStep_agree (h : Int) (c : Nat) (h0 : 0 ≤ h)
    (hlt : 31 * h + (c : Int) < 2147483648) :
    hashStepUtils h c = 31 * h + c ∧ hashStepGen h c = 31 * h + c := by
  have hx0 : (0 : Int) ≤ 31 * h + c := by positivity
  have hmodeq : Int.ModEq 4294967296 (toInt32 (h * 32)) (h * 32) :=
    toInt32_emod (h * 32)
  have hcong : (toInt32 (h * 32) - h + c) % 4294967296
      = (31 * h + (c : Int)) % 4294967296 := by
    have h2 : Int.ModEq 4294967296 (toInt32 (h * 32) - h + c) (h * 32 - h + c) :=
      (hmodeq.sub_right h).add_right c
    have h3 : h * 32 - h + (c : Int) = 31 * h + c := by ring
    rw [h3] at h2
    exact h2
  constructor
  · unfold hashStepUtils
    rw [land32_mask]
    have hdvd : (2147483648 : Int) ∣ 4294967296 := by norm_num
    calc (toInt32 (h * 32) - h + c) % 2147483648
        = ((toInt32 (h * 32) - h + c) % 4294967296) % 2147483648 :=
          (Int.emod_emod_of_dvd _ hdvd).symm
      _ = ((31 * h + (c : Int)) % 4294967296) % 2147483648 := by rw [hcong]
      _ = (31 * h + (c : Int)) % 2147483648 := Int.emod_emod_of_dvd _ hdvd
      _ = 31 * h + c := Int.emod_eq_of_lt hx0 hlt
  · unfold hashStepGen
    exact toInt32_eq_of_emod hcong hx0 hlt

/-! ## Claims C4 and C10 -/

/-- C4: for every string (including the empty string), both `hashString`
implementations return a non-negative integer, and calling either twice on
the same string yields identical results (they are pure functions of the
code-unit list). -/
theorem hashString_nonneg_and_deterministic (s : List Nat) :
    0 ≤ hashStringUtils s ∧ hashStringUtils s = hashStringUtils s ∧
    0 ≤ hashStringGen s ∧ hashStringGen s = hashStringGen s :=
  ⟨abs_nonneg _, rfl, abs_nonneg _, rfl⟩

/-- C10 counterexample: the two `hashString` implementations differ on the
string `"aaaaaa"` (six code units 97).  `utils.js` returns 722111584 while
`generate.js` returns 1425372064: after five characters the accumulator
reaches 92567585, and the sixth iteration overflows 31 bits, which the two
maskings (`& 0x7fffffff` versus signed `ToInt32`) resolve differently. -/
theorem hashString_implementations_differ :
    hashStringUtils [97, 97, 97, 97, 97, 97] ≠ hashStringGen [97, 97, 97, 97, 97, 97] := by
  decide

/-- C10 (amended): the two `hashString` implementations agree on every
string of length at most 4.  (For such strings the accumulator is bounded
by `31^3·65535 + ... < 2^31`, so no 32-bit effect is observable.  From
length 5 on they can differ — see the counterexample.) -/
theorem hashString_implementations_agree_short (s : List Nat)
    (hlen : s.length ≤ 4) (hc : ∀ c ∈ s, c < 65536) :
    hashStringUtils s = hashStringGen s := by
  unfold hashStringUtils hashStringGen
  rcases s with - | ⟨a, - | ⟨b, - | ⟨c, - | ⟨d, - | ⟨e, t⟩⟩⟩⟩⟩
  · decide
  · have ha := hc a (by simp)
    have h1 := hashStep_agree 0 a le_rfl (by push_cast; linarith)
    simp only [List.foldl_cons, List.foldl_nil, h1.1, h1.2]
  · have ha := hc a (by simp)
    have hb := hc b (by simp)
    have h1 := hashStep_agree 0 a le_rfl (by push_cast; linarith)
    have h2 := hashStep_agree (31 * 0 + a) b (by positivity) (by push_cast; linarith)
    simp only [List.foldl_cons, List.foldl_nil, h1.1, h1.2, h2.1, h2.2]
  · have ha := hc a (by simp)
    have hb := hc b (by simp)
    have hcc := hc c (by simp)
    have h1 := hashStep_agree 0 a le_rfl (by push_cast; linarith)
    have h2 := hashStep_agree (31 * 0 + a) b (by positivity) (by push_cast; linarith)
    have h3 := hashStep_agree (31 * (31 * 0 + a) + b) c (by positivity)
      (by push_cast; linarith)
    simp only [List.foldl_cons, List.foldl_nil, h1.1, h1.2, h2.1, h2.2, h3.1, h3.2]
  · have ha := hc a (by simp)
    have hb := hc b (by simp)
    have hcc := hc c (by simp)
    have hd := hc d (by simp)
    have h1 := hashStep_agree 0 a le_rfl (by push_cast; linarith)
    have h2 := hashStep_agree (31 * 0 + a) b (by positivity) (by push_cast; linarith)
    have h3 := hashStep_agree (31 * (31 * 0 + a) + b) c (by positivity)
      (by push_cast; linarith)
    have h4 := hashStep_agree (31 * (31 * (31 * 0 + a) + b) + c) d (by positivity)
      (by push_cast; linarith)
    simp only [List.foldl_cons, List.foldl_nil, h1.1, h1.2, h2.1, h2.2, h3.1, h3.2,
      h4.1, h4.2]
  · exfalso
    simp only [List.length_cons] at hlen
    omega

/-- C10 witness: the amended agreement theorem applied to the concrete
string `"abc"`. -/
theorem hashString_implementations_agree_short_witness :
    ([97, 98, 99] : List Nat).length ≤ 4 ∧ (∀ c ∈ [97, 98, 99], c < 65536) ∧
    hashStringUtils [97, 98, 99] = hashStringGen [97, 98, 99] :=
  ⟨by decide, by decide,
    hashString_implementations_agree_short [97, 98, 99] (by decide) (by decide)⟩

/-! ## Model of the seeded `chance.js` PRNG

A seeded `new Chance(seed)` instance is a deterministic stream of draws.
We model an instance as a record of pure functions of the draw index
("tick"): each library call consumes one tick.  `chance.bool` is defined
in the library as `this.random() * 100 < likelihood`, which we reproduce
through the `randomF` field.  `ChanceGen.Valid` captures the documented
range guarantees of the library (`random ∈ [0,1)`, `floating`/`integer`
inside `[min, max]`, `pickone` a valid index). -/

structure ChanceGen where
  randomF : Nat → Rat
  floatingF : Rat → Rat → Nat → Rat
  integerF : Int → Int → Nat → Int
  pickoneF : Nat → Nat → Nat
  weightedF : Nat → Nat → Nat

/-- `chance.bool({likelihood})`, via the library's own definition
`random() * 100 < likelihood`. -/
def ChanceGen.boolF (g : ChanceGen) (likelihood : Rat) (t : Nat) : Bool :=
  decide (g.randomF t * 100 < likelihood)

/-- Range guarantees of the chance.js draw primitives. -/
structure ChanceGen.Valid (g : ChanceGen) : Prop where
  random_nonneg : ∀ t, 0 ≤ g.randomF t
  random_lt_one : ∀ t, g.randomF t < 1
  floating_ge : ∀ lo hi t, lo ≤ hi → lo ≤ g.floatingF lo hi t
  floating_le : ∀ lo hi t, lo ≤ hi → g.floatingF lo hi t ≤ hi
  integer_ge : ∀ lo hi t, lo ≤ hi → lo ≤ g.integerF lo hi t
  integer_le : ∀ lo hi t, lo ≤ hi → g.integerF lo hi t ≤ hi
  pickone_lt : ∀ n t, 0 < n → g.pickoneF n t < n

/-- A concrete valid instance: `random` is constantly 1/2, `floating` and
`integer` return their lower bound, `pickone`/`weighted` index 0. -/
def midGen : ChanceGen where
  randomF _ := 1 / 2
  floatingF lo _ _ := lo
  integerF lo _ _ := lo
  pickoneF _ _ := 0
  weightedF _ _ := 0

theorem midGen_valid : midGen.Valid where
  random_nonneg _ := by norm_num [midGen]
  random_lt_one _ := by norm_num [midGen]
  floating_ge _ _ _ _ := le_rfl
  floating_le _ _ _ h := h
  integer_ge _ _ _ _ := le_rfl
  integer_le _ _ _ h := h
  pickone_lt _ _ h := h

/-! ## The color perturbation function `glitchColor`

`src/unnamed/part_000` (`advanced-color-system`), lines 5–135.  The
external `chroma-js` color library is modelled as a record of pure
conversion functions over an abstract color type `C`; `chroma(baseColor)`
may fail (the surrounding `try`/`catch` then returns the base color), so
`parse` is `Option`-valued.  `chroma.random()` — which draws from the
unseeded global `Math.random` — is modelled as an ambient stream
`world : Nat → C` supplied per call: two separate calls to `glitchColor`
may observe different worlds. -/

structure ChromaLib (C : Type) where
  parse : String → Option C
  labOf : C → Rat × Rat × Rat
  labHex : Rat → Rat → Rat → String
  lchOf : C → Rat × Rat × Rat
  lchHex : Rat → Rat → Rat → String
  oklabOf : C → Rat × Rat × Rat
  oklabHex : Rat → Rat → Rat → String
  cubehelixHex : Rat → Rat → Rat → Rat → String
  temperatureHex : Int → String
  bezierHex : C → C → C → Rat → String
  xyzOf : C → Rat × Rat × Rat
  xyzHex : Rat → Rat → Rat → String
  hslOf : C → Rat × Rat × Rat
  hslHex : Rat → Rat → Rat → String
  whiteLuminance : Rat
  rgbHex : Rat → Rat → Rat → String
  cmykOf : C → Rat × Rat × Rat × Rat
  cmykHex : Rat → Rat → Rat → Rat → String
  rgbOf : C → Rat × Rat × Rat

/-- The spectral-wavelength-to-RGB mapping computed inline in case 10 of
`glitchColor` (returns the raw `0..1` channel triple). -/
def wavelengthRGB (wavelength : Int) : Rat × Rat × Rat :=
  if wavelength < 440 then
    (((440 - wavelength : Int) : Rat) / (440 - 380), 0, 1)
  else if wavelength < 490 then
    (0, ((wavelength - 440 : Int) : Rat) / (490 - 440), 1)
  else if wavelength < 510 then
    (0, 1, ((510 - wavelength : Int) : Rat) / (510 - 490))
  else if wavelength < 580 then
    (((wavelength - 510 : Int) : Rat) / (580 - 510), 1, 0)
  else if wavelength < 645 then
    (1, ((645 - wavelength : Int) : Rat) / (645 - 580), 0)
  else
    (1, 0, 0)

/-- `glitchColor(baseColor, seed, likelihood)`: `g` models the
`new Chance(seed)` instance, `world` the unseeded `chroma.random()`
stream.  Draw ticks: `chance.bool` at 0, the glitch-type
`chance.integer({min:1,max:12})` at 1, case-local draws from 2 on,
mirroring the source order. -/
def glitchColor {C : Type} (L : ChromaLib C) (g : ChanceGen) (world : Nat → C)
    (baseColor : String) (likelihood : Rat) : String :=
  match g.boolF likelihood 0 with
  | false => baseColor  -- if (!chance.bool({ likelihood })) return baseColor;
  | true =>
    match L.parse baseColor with
    | none => baseColor
    | some color =>
      let glitchType := g.integerF 1 12 1
      if glitchType = 1 then
        -- LAB space distortion
        let lab := L.labOf color
        L.labHex (lab.1 + g.floatingF (-30) 30 2) (lab.2.1 + g.floatingF (-40) 40 3)
          (lab.2.2 + g.floatingF (-40) 40 4)
      else if glitchType = 2 then
        -- LCH chroma explosion
        let lch := L.lchOf color
        L.lchHex lch.1 (min 130 (lch.2.1 * g.floatingF 2 5 2))
          (lch.2.2 + g.floatingF (-20) 20 3)
      else if glitchType = 3 then
        -- OKLab perceptual shift
        let ok := L.oklabOf color
        L.oklabHex (max 0 (min 1 (ok.1 + g.floatingF (-(3/10)) (3/10) 2)))
          (ok.2.1 + g.floatingF (-(2/10)) (2/10) 3)
          (ok.2.2 + g.floatingF (-(2/10)) (2/10) 4)
      else if glitchType = 4 then
        -- cubehelix rotation
        let start := g.floatingF 0 2 2
        let rotations := g.floatingF (-2) 2 3
        let gamma := g.floatingF (1/2) 2 4
        L.cubehelixHex start rotations gamma (1/2)
      else if glitchType = 5 then
        -- blackbody temperature
        L.temperatureHex (g.integerF 2000 10000 2)
      else if glitchType = 6 then
        -- Bezier interpolation through two chroma.random() colors
        let color1 := world 0
        let color2 := world 1
        let t := g.floatingF 0 1 2
        L.bezierHex color color1 color2 t
      else if glitchType = 7 then
        -- delta-E neighbor
        let lab := L.labOf color
        L.labHex (lab.1 + g.floatingF (-5) 5 2) (lab.2.1 + g.floatingF (-10) 10 3)
          (lab.2.2 + g.floatingF (-10) 10 4)
      else if glitchType = 8 then
        -- chromatic adaptation (the illuminant pick is drawn but unused)
        let _illuminant := g.pickoneF 5 2
        let xyz := L.xyzOf color
        L.xyzHex (xyz.1 * g.floatingF (8/10) (12/10) 3)
          (xyz.2.1 * g.floatingF (9/10) (11/10) 4)
          (xyz.2.2 * g.floatingF (7/10) (13/10) 5)
      else if glitchType = 9 then
        -- contrast-ratio manipulation
        let contrastTarget := g.floatingF (1/10) 21 2
        let targetLum := (L.whiteLuminance + 5/100) / contrastTarget - 5/100
        let hsl := L.hslOf color
        L.hslHex hsl.1 hsl.2.1 targetLum
      else if glitchType = 10 then
        -- spectral wavelength mapping
        let rgb := wavelengthRGB (g.integerF 380 750 2)
        L.rgbHex (rgb.1 * 255) (rgb.2.1 * 255) (rgb.2.2 * 255)
      else if glitchType = 11 then
        -- CMYK separation glitch
        let cmyk := L.cmykOf color
        L.cmykHex (max 0 (min 1 (cmyk.1 + g.floatingF (-(3/10)) (3/10) 2)))
          (max 0 (min 1 (cmyk.2.1 + g.floatingF (-(3/10)) (3/10) 3)))
          (max 0 (min 1 (cmyk.2.2.1 + g.floatingF (-(3/10)) (3/10) 4)))
          (max 0 (min 1 (cmyk.2.2.2 + g.floatingF (-(2/10)) (2/10) 5)))
      else if glitchType = 12 then
        -- cone-response simulation
        let rgb := L.rgbOf color
        let lResp := rgb.1 * (4124/10000) + rgb.2.1 * (3576/10000) + rgb.2.2 * (1805/10000)
        let mResp := rgb.1 * (2126/10000) + rgb.2.1 * (7152/10000) + rgb.2.2 * (722/10000)
        let sResp := rgb.1 * (193/10000) + rgb.2.1 * (1192/10000) + rgb.2.2 * (9505/10000)
        L.rgbHex (max 0 (min 255 (lResp * g.floatingF (7/10) (13/10) 2)))
          (max 0 (min 255 (mResp * g.floatingF (8/10) (12/10) 3)))
          (max 0 (min 255 (sResp * g.floatingF (6/10) (14/10) 4)))
      else baseColor

/-! ## Claims C8 and C3 -/

/-- C8: for every chroma model, every seeded chance instance with the
library's range guarantees, every ambient `chroma.random` stream and every
base color, `glitchColor` with likelihood 0 returns the base color
unchanged: `chance.bool({likelihood: 0})` is `random() * 100 < 0`, which
is false since `random() ≥ 0`. -/
theorem glitchColor_likelihood_zero {C : Type} (L : ChromaLib C) (g : ChanceGen)
    (hg : g.Valid) (world : Nat → C) (baseColor : String) :
    glitchColor L g world baseColor 0 = baseColor := by
  have hb : g.boolF 0 0 = false := by
    have h0 := hg.random_nonneg 0
    simp only [ChanceGen.boolF, decide_eq_false_iff_not, not_lt]
    positivity
  unfold glitchColor
  rw [hb]

/-- C8 witness: the theorem applied at a concrete valid instance and the
base color `"#ffffff"` of the spec. -/
theorem glitchColor_likelihood_zero_witness :
    midGen.Valid ∧
    glitchColor ⟨fun s => some s, fun _ => (0, 0, 0), fun _ _ _ => "#000000",
      fun _ => (0, 0, 0), fun _ _ _ => "#000000", fun _ => (0, 0, 0),
      fun _ _ _ => "#000000", fun _ _ _ _ => "#000000", fun _ => "#000000",
      fun _ c1 _ _ => c1, fun _ => (0, 0, 0), fun _ _ _ => "#000000",
      fun _ => (0, 0, 0), fun _ _ _ => "#000000", 1, fun _ _ _ => "#000000",
      fun _ => (0, 0, 0, 0), fun _ _ _ _ => "#000000", fun _ => (0, 0, 0)⟩
      midGen (fun _ => "#ffffff") "#ffffff" 0 = "#ffffff" :=
  ⟨midGen_valid, glitchColor_likelihood_zero _ midGen midGen_valid _ "#ffffff"⟩

/-- The string-valued chroma model used in the C3 counterexample: colors
are hex strings, parsing succeeds, and the Bezier interpolation reflects
its first control color (the real `chroma.bezier` output at an interior
parameter genuinely depends on the random control colors). -/
def strChroma : ChromaLib String where
  parse s := some s
  labOf _ := (0, 0, 0)
  labHex _ _ _ := "#000000"
  lchOf _ := (0, 0, 0)
  lchHex _ _ _ := "#000000"
  oklabOf _ := (0, 0, 0)
  oklabHex _ _ _ := "#000000"
  cubehelixHex _ _ _ _ := "#000000"
  temperatureHex _ := "#000000"
  bezierHex _ c1 _ _ := c1
  xyzOf _ := (0, 0, 0)
  xyzHex _ _ _ := "#000000"
  hslOf _ := (0, 0, 0)
  hslHex _ _ _ := "#000000"
  whiteLuminance := 1
  rgbHex _ _ _ := "#000000"
  cmykOf _ := (0, 0, 0, 0)
  cmykHex _ _ _ _ := "#000000"
  rgbOf _ := (0, 0, 0)

/-- A valid chance instance whose type draw `integer({min:1,max:12})`
selects case 6 (the Bezier/`chroma.random` case). -/
def bezGen : ChanceGen where
  randomF _ := 0
  floatingF lo hi _ := (lo + hi) / 2
  integerF lo hi _ := if lo = 1 ∧ hi = 12 then 6 else lo
  pickoneF _ _ := 0
  weightedF _ _ := 0

theorem bezGen_valid : bezGen.Valid where
  random_nonneg _ := le_rfl
  random_lt_one _ := by norm_num [bezGen]
  floating_ge lo hi _ h := by simp only [bezGen]; linarith
  floating_le lo hi _ h := by simp only [bezGen]; linarith
  integer_ge lo hi _ h := by
    simp only [bezGen]
    split
    · omega
    · exact le_rfl
  integer_le lo hi _ h := by
    simp only [bezGen]
    split
    · omega
    · exact h
  pickone_lt _ _ h := h

/-- C3 counterexample: with likelihood 100 the perturbation always fires;
when the seeded type draw selects case 6 the output is built from two
`chroma.random()` colors drawn from the unseeded global RNG, so two calls
with the same `(baseColor, seed)` can return different colors.  Here the
two calls observe different ambient `Math.random` streams and disagree. -/
theorem glitchColor_not_deterministic :
    bezGen.Valid ∧
    glitchColor strChroma bezGen (fun _ => "#111111") "#888888" 100 ≠
      glitchColor strChroma bezGen (fun _ => "#222222") "#888888" 100 :=
  ⟨bezGen_valid, by decide⟩

/-- C3 (amended): two calls of `glitchColor` with likelihood 100 and the
same `(baseColor, seed)` agree whenever the seeded glitch-type draw is not
6; the Bezier case 6 draws two colors from the unseeded `chroma.random`
and is the only strategy that can differ between calls. -/
theorem glitchColor_deterministic_unless_bezier {C : Type} (L : ChromaLib C)
    (g : ChanceGen) (hg : g.Valid) (w1 w2 : Nat → C) (baseColor : String)
    (h6 : g.integerF 1 12 1 ≠ 6) :
    glitchColor L g w1 baseColor 100 = glitchColor L g w2 baseColor 100 := by
  have hb : g.boolF 100 0 = true := by
    have h1 := hg.random_lt_one 0
    simp only [ChanceGen.boolF, decide_eq_true_eq]
    linarith
  unfold glitchColor
  rw [hb]
  cases L.parse baseColor with
  | none => rfl
  | some color =>
    dsimp only
    by_cases h1 : g.integerF 1 12 1 = 1
    · simp only [if_pos h1]
    simp only [if_neg h1]
    by_cases h2 : g.integerF 1 12 1 = 2
    · simp only [if_pos h2]
    simp only [if_neg h2]
    by_cases h3 : g.integerF 1 12 1 = 3
    · simp only [if_pos h3]
    simp only [if_neg h3]
    by_cases h4 : g.integerF 1 12 1 = 4
    · simp only [if_pos h4]
    simp only [if_neg h4]
    by_cases h5 : g.integerF 1 12 1 = 5
    · simp only [if_pos h5]
    simp only [if_neg h5, if_neg h6]

/-- C3 witness for the amended theorem: concrete valid instance whose type
draw is 1 (≠ 6); both calls return the same color. -/
theorem glitchColor_deterministic_unless_bezier_witness :
    midGen.Valid ∧ midGen.integerF 1 12 1 ≠ 6 ∧
    glitchColor strChroma midGen (fun _ => "#111111") "#888888" 100 =
      glitchColor strChroma midGen (fun _ => "#222222") "#888888" 100 :=
  ⟨midGen_valid, by decide,
    glitchColor_deterministic_unless_bezier strChroma midGen midGen_valid _ _
      "#888888" (by decide)⟩

/-! ## The Perlin noise engine

`src/lib/pixel-glitch.js`, class `PerlinNoise` (lines 32–119).  The
constructor builds a seeded `Chance` instance and shuffles `[0..255]` with
Fisher–Yates, doubling the table; `noise` is the classic gradient noise
and `generateMask` the octave (fBm) summation remapped by
`(value + 1) * 0.5`.  Bitwise operations on non-negative quantities are
modelled arithmetically (`& 255` = `% 256`, `& 15` = `% 16`, `& 1` =
`% 2`, `& 2` = bit 1). -/

def fade (t : Rat) : Rat := t * t * t * (t * (t * 6 - 15) + 10)

def lerp (a b t : Rat) : Rat := a + t * (b - a)

/-- `u` of `grad`: `h < 8 ? x : y`. -/
def gradU (h : Nat) (x y : Rat) : Rat := if h < 8 then x else y

/-- `v` of `grad`: `h < 4 ? y : h === 12 || h === 14 ? x : 0`. -/
def gradV (h : Nat) (x y : Rat) : Rat :=
  if h < 4 then y else if h = 12 ∨ h = 14 then x else 0

/-- `grad(hash, x, y)`: sign bits `h & 1` and `h & 2` applied to `u`, `v`. -/
def grad (hash : Nat) (x y : Rat) : Rat :=
  (if hash % 16 % 2 = 0 then gradU (hash % 16) x y else -gradU (hash % 16) x y) +
  (if hash % 16 / 2 % 2 = 0 then gradV (hash % 16) x y else -gradV (hash % 16) x y)

/-- One Fisher–Yates step: swap `p[i]` and `p[j]` with
`j = chance.integer({min: 0, max: i})`; step `i` runs at tick `255 - i`. -/
def fisherYatesStep (g : ChanceGen) (p : List Nat) (i : Nat) : List Nat :=
  let j := (g.integerF 0 (i : Int) (255 - i)).toNat
  let pi := p.getD i 0
  let pj := p.getD j 0
  (p.set i pj).set j pi

/-- `generatePermutation()`: seeded Fisher–Yates shuffle of `[0..255]`
(`i` from 255 down to 1), then the table is doubled (`[...p, ...p]`). -/
def generatePermutation (g : ChanceGen) : List Nat :=
  let p := ((List.range 255).map (fun k => 255 - k)).foldl (fisherYatesStep g)
    (List.range 256)
  p ++ p

/-- `noise(x, y)`: lattice-cell lookup through the permutation table, fade
interpolants, and bilinear interpolation of the four corner gradients. -/
def noise (perm : List Nat) (x y : Rat) : Rat :=
  let X := (⌊x⌋ % 256).toNat
  let Y := (⌊y⌋ % 256).toNat
  let xf := x - ⌊x⌋
  let yf := y - ⌊y⌋
  let u := fade xf
  let v := fade yf
  let A := perm.getD X 0 + Y
  let AA := perm.getD A 0
  let AB := perm.getD (A + 1) 0
  let B := perm.getD (X + 1) 0 + Y
  let BA := perm.getD B 0
  let BB := perm.getD (B + 1) 0
  lerp (lerp (grad (perm.getD AA 0) xf yf) (grad (perm.getD BA 0) (xf - 1) yf) u)
    (lerp (grad (perm.getD AB 0) xf (yf - 1)) (grad (perm.getD BB 0) (xf - 1) (yf - 1)) u) v

/-- The per-pixel octave loop of `generateMask`; state is
`(value, amplitude, frequency)`, one step per octave. -/
def fbmLoop (perm : List Nat) (px py : Rat) : Nat → Rat × Rat × Rat → Rat × Rat × Rat
  | 0, s => s
  | n + 1, s =>
      fbmLoop perm px py n
        (s.1 + noise perm (px * s.2.2) (py * s.2.2) * s.2.1, s.2.1 * (1 / 2), s.2.2 * 2)

/-- One mask entry: `(value + 1) * 0.5`.  (The source stores the value
into a `Float32Array`; we keep the exact rational.) -/
def maskValue (perm : List Nat) (x y : Nat) (scale : Rat) (octaves : Nat) : Rat :=
  ((fbmLoop perm (x : Rat) (y : Rat) octaves (0, 1, scale)).1 + 1) * (1 / 2)

/-- `generateMask(width, height, scale, octaves)`: the row-major flat
array `mask[y * width + x] = maskValue x y` (index `idx = y*width + x`,
i.e. `x = idx % width`, `y = idx / width`). -/
def generateMask (perm : List Nat) (width height : Nat) (scale : Rat)
    (octaves : Nat) : List Rat :=
  (List.range (height * width)).map
    (fun idx => maskValue perm (idx % width) (idx / width) scale octaves)

/-! ### Bounds on the noise pipeline -/

theorem fade_nonneg {t : Rat} (h0 : 0 ≤ t) (_h1 : t ≤ 1) : 0 ≤ fade t := by
  have h2 : fade t = t ^ 3 * (6 * t ^ 2 - 15 * t + 10) := by unfold fade; ring
  have h3 : 0 ≤ t ^ 3 := pow_nonneg h0 3
  have h4 : (0 : Rat) ≤ 6 * t ^ 2 - 15 * t + 10 := by nlinarith [sq_nonneg (2 * t - 5 / 2)]
  rw [h2]
  exact mul_nonneg h3 h4

theorem fade_le_one {t : Rat} (h0 : 0 ≤ t) (h1 : t ≤ 1) : fade t ≤ 1 := by
  have h2 : 1 - fade t = (1 - t) ^ 3 * (6 * t ^ 2 + 3 * t + 1) := by unfold fade; ring
  have h3 : 0 ≤ (1 - t) ^ 3 := pow_nonneg (by linarith) 3
  have h4 : (0 : Rat) ≤ 6 * t ^ 2 + 3 * t + 1 := by positivity
  nlinarith [mul_nonneg h3 h4]

theorem lerp_abs_le {a b t M : Rat} (ha : |a| ≤ M) (hb : |b| ≤ M)
    (h0 : 0 ≤ t) (h1 : t ≤ 1) : |lerp a b t| ≤ M := by
  rw [abs_le] at ha hb ⊢
  unfold lerp
  constructor <;> nlinarith [ha.1, ha.2, hb.1, hb.2]

theorem gradU_abs_le {x y : Rat} (h : Nat) (hx : |x| ≤ 1) (hy : |y| ≤ 1) :
    |gradU h x y| ≤ 1 := by
  unfold gradU
  split <;> assumption

theorem gradV_abs_le {x y : Rat} (h : Nat) (hx : |x| ≤ 1) (hy : |y| ≤ 1) :
    |gradV h x y| ≤ 1 := by
  unfold gradV
  split
  · exact hy
  · split
    · exact hx
    · norm_num

/-- Each corner gradient is bounded by `|u| + |v| ≤ 2`. -/
theorem grad_abs_le {x y : Rat} (hash : Nat) (hx : |x| ≤ 1) (hy : |y| ≤ 1) :
    |grad hash x y| ≤ 2 := by
  unfold grad
  refine (abs_add _ _).trans ?_
  have h1 : |if hash % 16 % 2 = 0 then gradU (hash % 16) x y
      else -gradU (hash % 16) x y| ≤ 1 := by
    split
    · exact gradU_abs_le _ hx hy
    · rw [abs_neg]; exact gradU_abs_le _ hx hy
  have h2 : |if hash % 16 / 2 % 2 = 0 then gradV (hash % 16) x y
      else -gradV (hash % 16) x y| ≤ 1 := by
    split
    · exact gradV_abs_le _ hx hy
    · rw [abs_neg]; exact gradV_abs_le _ hx hy
  linarith

/-- A single `noise` sample is within `[-2, 2]` for every permutation
table and every sample point. -/
theorem noise_abs_le_two (perm : List Nat) (x y : Rat) : |noise perm x y| ≤ 2 := by
  unfold noise
  dsimp only
  have hx0 : (0 : Rat) ≤ x - ⌊x⌋ := by
    have := Int.floor_le x
    linarith
  have hx1 : x - ⌊x⌋ ≤ 1 := by
    have := Int.lt_floor_add_one x
    push_cast at this
    linarith
  have hy0 : (0 : Rat) ≤ y - ⌊y⌋ := by
    have := Int.floor_le y
    linarith
  have hy1 : y - ⌊y⌋ ≤ 1 := by
    have := Int.lt_floor_add_one y
    push_cast at this
    linarith
  have hxa : |x - ⌊x⌋| ≤ 1 := abs_le.mpr ⟨by linarith, hx1⟩
  have hxb : |x - ⌊x⌋ - 1| ≤ 1 := abs_le.mpr ⟨by linarith, by linarith⟩
  have hya : |y - ⌊y⌋| ≤ 1 := abs_le.mpr ⟨by linarith, hy1⟩
  have hyb : |y - ⌊y⌋ - 1| ≤ 1 := abs_le.mpr ⟨by linarith, by linarith⟩
  exact lerp_abs_le
    (lerp_abs_le (grad_abs_le _ hxa hya) (grad_abs_le _ hxb hya)
      (fade_nonneg hx0 hx1) (fade_le_one hx0 hx1))
    (lerp_abs_le (grad_abs_le _ hxa hyb) (grad_abs_le _ hxb hyb)
      (fade_nonneg hx0 hx1) (fade_le_one hx0 hx1))
    (fade_nonneg hy0 hy1) (fade_le_one hy0 hy1)

/-- The octave summation is bounded by the geometric amplitude series. -/
theorem fbmLoop_abs_le (perm : List Nat) (px py : Rat) (n : Nat)
    (value amp freq : Rat) (ha : 0 ≤ amp) :
    |(fbmLoop perm px py n (value, amp, freq)).1| ≤
      |value| + 4 * amp * (1 - (1 / 2) ^ n) := by
  induction n generalizing value amp freq with
  | zero => simp [fbmLoop]
  | succ n ih =>
    have hstep : (fbmLoop perm px py (n + 1) (value, amp, freq)).1
        = (fbmLoop perm px py n
            (value + noise perm (px * freq) (py * freq) * amp,
             amp * (1 / 2), freq * 2)).1 := rfl
    rw [hstep]
    have hn := noise_abs_le_two perm (px * freq) (py * freq)
    have habs : |value + noise perm (px * freq) (py * freq) * amp|
        ≤ |value| + 2 * amp := by
      refine (abs_add _ _).trans ?_
      have : |noise perm (px * freq) (py * freq) * amp|
          = |noise perm (px * freq) (py * freq)| * amp := by
        rw [abs_mul, abs_of_nonneg ha]
      nlinarith
    have h2 := ih (value + noise perm (px * freq) (py * freq) * amp)
      (amp * (1 / 2)) (freq * 2) (by positivity)
    calc |(fbmLoop perm px py n
            (value + noise perm (px * freq) (py * freq) * amp,
             amp * (1 / 2), freq * 2)).1|
        ≤ |value + noise perm (px * freq) (py * freq) * amp|
            + 4 * (amp * (1 / 2)) * (1 - (1 / 2) ^ n) := h2
      _ ≤ |value| + 2 * amp + 4 * (amp * (1 / 2)) * (1 - (1 / 2) ^ n) := by linarith
      _ = |value| + 4 * amp * (1 - (1 / 2) ^ (n + 1)) := by ring

/-! ### Claim C2 -/

/-- A valid chance stream whose Fisher–Yates draws produce the
permutation that is the identity except `P[1]=4, P[2]=1, P[3]=19, P[4]=2,
P[5]=3, P[19]=5` (draw `j = i` except `j = 5, 3, 2, 1` at
`i = 19, 5, 4, 2`). -/
def advGen : ChanceGen where
  randomF _ := 0
  floatingF lo _ _ := lo
  integerF lo hi _ :=
    if lo = 0 then
      (if hi = 19 then 5 else if hi = 5 then 3 else if hi = 4 then 2
       else if hi = 2 then 1 else hi)
    else lo
  pickoneF _ _ := 0
  weightedF _ _ := 0

theorem advGen_valid : advGen.Valid where
  random_nonneg _ := le_rfl
  random_lt_one _ := by norm_num [advGen]
  floating_ge _ _ _ _ := le_rfl
  floating_le _ _ _ h := h
  integer_ge lo hi t h := by
    simp only [advGen]
    split
    · split_ifs <;> omega
    · exact le_rfl
  integer_le lo hi t h := by
    simp only [advGen]
    split
    · split_ifs <;> omega
    · exact h
  pickone_lt _ _ h := h

/-- C2 counterexample: `generateMask` values are NOT always within
`[0, 1]`.  With the valid chance stream `advGen` (whose Fisher–Yates
draws are `j = 5, 3, 2, 1` at `i = 19, 5, 4, 2` and `j = i` otherwise),
`generateMask(width 2, height 2, scale 1/4, octaves 2)` has the value
`1077/1024 ≈ 1.0518 > 1` at pixel `(1, 1)`: both octaves sample the same
lattice cell, whose four corner gradients all point along the diagonal, so
the fBm sum reaches `309/512 + 1/2 > 1` and the `(v+1)/2` remap exceeds 1
(the source applies no clamping). -/
theorem generateMask_value_exceeds_one :
    advGen.Valid ∧
    1 < (generateMask (generatePermutation advGen) 2 2 (1 / 4) 2).getD 3 0 :=
  ⟨advGen_valid, by decide⟩

/-- C2 (amended): every element of
`PerlinNoise(seed).generateMask(width, height, scale, octaves)` lies
within `[(1 - S)/2, (1 + S)/2]` where `S = 4 * (1 - (1/2)^octaves)` is the
worst-case fBm amplitude sum (so always within `(-3/2, 5/2)`); the `[0,1]`
bound of the claim does not hold in general — see the counterexample. -/
theorem generateMask_within_bounds (g : ChanceGen) (width height : Nat)
    (scale : Rat) (octaves : Nat) (m : Rat)
    (hm : m ∈ generateMask (generatePermutation g) width height scale octaves) :
    (1 - 4 * (1 - (1 / 2) ^ octaves)) / 2 ≤ m ∧
      m ≤ (1 + 4 * (1 - (1 / 2) ^ octaves)) / 2 := by
  unfold generateMask at hm
  rcases List.mem_map.mp hm with ⟨idx, -, rfl⟩
  have h := fbmLoop_abs_le (generatePermutation g) ((idx % width : Nat) : Rat)
    ((idx / width : Nat) : Rat) octaves 0 1 scale (by norm_num)
  rw [abs_zero] at h
  rw [abs_le] at h
  unfold maskValue
  constructor <;> · rcases h with ⟨h1, h2⟩; linarith

/-- C2 witness for the amended bound: with zero octaves every mask value
is exactly 1/2, inside the stated interval. -/
theorem generateMask_within_bounds_witness :
    ((1 / 2 : Rat) ∈ generateMask (generatePermutation midGen) 1 1 1 0) ∧
    (1 - 4 * (1 - (1 / 2) ^ (0 : Nat))) / 2 ≤ (1 / 2 : Rat) ∧
    (1 / 2 : Rat) ≤ (1 + 4 * (1 - (1 / 2) ^ (0 : Nat))) / 2 := by
  have h := generateMask_within_bounds midGen 1 1 1 0 (1 / 2) (by decide)
  exact ⟨by decide, h.1, h.2⟩

/-! ## Pixel sorting (`applyPixelSortH` / `applyPixelSortV`)

`src/lib/pixel-glitch.js`, lines 674–731.  For the per-segment properties
the interleaved byte buffer (stride `channels`, here the 4-channel case)
is viewed as a grid of pixels `{r, g, b, a}`.  A line sort extracts the
pixels of `[startX, endX)`, sorts them by brightness `r + g + b` in a
drawn direction (JS `Array.prototype.sort` is stable; we model it with
`List.insertionSort`, also stable), and writes back only the RGB
components — each position keeps its own alpha byte, since the write-back
loop assigns `pixels[idx]`, `pixels[idx+1]`, `pixels[idx+2]` only.
`applyPixelSortV` is the same algorithm over a column of the image, so it
is modelled over the list of columns. -/

structure Pix where
  r : Nat
  g : Nat
  b : Nat
  a : Nat
deriving DecidableEq

/-- Total brightness `r + g + b` used by the sort comparator. -/
def brightness (p : Pix) : Nat := p.r + p.g + p.b

/-- The comparator `sortDirection * ((a0+a1+a2) - (b0+b1+b2))`:
ascending when the drawn direction is `true` (`1`), descending
otherwise. -/
def pixLE (asc : Bool) (p q : Pix) : Prop :=
  if asc then brightness p ≤ brightness q else brightness q ≤ brightness p

instance (asc : Bool) : DecidableRel (pixLE asc) := fun p q => by
  unfold pixLE
  split <;> infer_instance

instance (asc : Bool) : IsTotal Pix (pixLE asc) where
  total p q := by
    unfold pixLE
    split
    · exact Nat.le_total _ _
    · exact Nat.le_total _ _

instance (asc : Bool) : IsTrans Pix (pixLE asc) where
  trans p q r := by
    unfold pixLE
    split
    · exact Nat.le_trans
    · exact fun h1 h2 => Nat.le_trans h2 h1

/-- The RGB triple of a pixel (the data the sort permutes). -/
def pixRGB (p : Pix) : Nat × Nat × Nat := (p.r, p.g, p.b)

/-- Sort a segment by brightness, then write back only RGB: position `k`
receives the RGB of the `k`-th sorted pixel and keeps its own alpha. -/
def sortSegment (asc : Bool) (seg : List Pix) : List Pix :=
  ((seg.insertionSort (pixLE asc)).zip seg).map
    (fun sp => ⟨sp.1.r, sp.1.g, sp.1.b, sp.2.a⟩)

/-- Apply `sortSegment` to the positions `[startX, endX)` of a row (the
JS loop does nothing when `endX ≤ startX`). -/
def sortRowSegment (asc : Bool) (startX endX : Nat) (row : List Pix) : List Pix :=
  if endX ≤ startX then row
  else row.take startX ++
    (sortSegment asc ((row.drop startX).take (endX - startX)) ++ row.drop endX)

/-- `applyPixelSortH`: `integer({min:3,max:8})` lines; per line a row
`y ∈ [0, height-1]`, bounds `startX ∈ [0, ⌊0.3·width⌋]`,
`endX ∈ [⌊0.7·width⌋, width]` and a direction coin (4 draws per line). -/
def applyPixelSortHPix (g : ChanceGen) (t : Nat) (width height : Nat)
    (rows : List (List Pix)) : List (List Pix) × Nat :=
  let sortLines := (g.integerF 3 8 t).toNat
  (List.range sortLines).foldl
    (fun acc _ =>
      let y := (g.integerF 0 ((height : Int) - 1) acc.2).toNat
      let startX := (g.integerF 0 ⌊(width : Rat) * (3 / 10)⌋ (acc.2 + 1)).toNat
      let endX := (g.integerF ⌊(width : Rat) * (7 / 10)⌋ (width : Int) (acc.2 + 2)).toNat
      let asc := g.boolF 50 (acc.2 + 3)
      (acc.1.set y (sortRowSegment asc startX endX (acc.1.getD y [])), acc.2 + 4))
    (rows, t + 1)

/-- `applyPixelSortV`: `integer({min:2,max:5})` columns; per column
`x ∈ [0, width-1]`, bounds `startY ∈ [0, ⌊0.3·height⌋]`,
`endY ∈ [⌊0.7·height⌋, height]` and a direction coin; the image is viewed
as its list of columns. -/
def applyPixelSortVPix (g : ChanceGen) (t : Nat) (width height : Nat)
    (cols : List (List Pix)) : List (List Pix) × Nat :=
  let sortLines := (g.integerF 2 5 t).toNat
  (List.range sortLines).foldl
    (fun acc _ =>
      let x := (g.integerF 0 ((width : Int) - 1) acc.2).toNat
      let startY := (g.integerF 0 ⌊(height : Rat) * (3 / 10)⌋ (acc.2 + 1)).toNat
      let endY := (g.integerF ⌊(height : Rat) * (7 / 10)⌋ (height : Int) (acc.2 + 2)).toNat
      let asc := g.boolF 50 (acc.2 + 3)
      (acc.1.set x (sortRowSegment asc startY endY (acc.1.getD x [])), acc.2 + 4))
    (cols, t + 1)

def rowAlphas (row : List Pix) : List Nat := row.map Pix.a

def gridAlphas (rows : List (List Pix)) : List (List Nat) := rows.map rowAlphas

/-! ### Per-segment properties -/

theorem sortSegment_length_eq (asc : Bool) (seg : List Pix) :
    (seg.insertionSort (pixLE asc)).length = seg.length :=
  (List.perm_insertionSort _ _).length_eq

theorem sortSegment_alphas (asc : Bool) (seg : List Pix) :
    (sortSegment asc seg).map Pix.a = seg.map Pix.a := by
  unfold sortSegment
  rw [List.map_map]
  have h1 : (Pix.a ∘ fun sp : Pix × Pix => (⟨sp.1.r, sp.1.g, sp.1.b, sp.2.a⟩ : Pix))
      = fun sp : Pix × Pix => sp.2.a := rfl
  rw [h1]
  have h2 : (fun sp : Pix × Pix => sp.2.a)
      = Pix.a ∘ (Prod.snd : Pix × Pix → Pix) := rfl
  rw [h2, ← List.map_map]
  rw [List.map_snd_zip]
  exact (sortSegment_length_eq asc seg).ge

theorem sortSegment_rgb_perm (asc : Bool) (seg : List Pix) :
    ((sortSegment asc seg).map pixRGB).Perm (seg.map pixRGB) := by
  unfold sortSegment
  rw [List.map_map]
  have h1 : (pixRGB ∘ fun sp : Pix × Pix => (⟨sp.1.r, sp.1.g, sp.1.b, sp.2.a⟩ : Pix))
      = pixRGB ∘ (Prod.fst : Pix × Pix → Pix) := rfl
  rw [h1, ← List.map_map]
  rw [List.map_fst_zip _ _ (sortSegment_length_eq asc seg).le]
  exact (List.perm_insertionSort _ _).map pixRGB

theorem sortSegment_sorted (asc : Bool) (seg : List Pix) :
    List.Pairwise (pixLE asc) (sortSegment asc seg) := by
  have hs : List.Pairwise (pixLE asc) (seg.insertionSort (pixLE asc)) :=
    List.sorted_insertionSort _ _
  rw [← List.map_fst_zip (seg.insertionSort (pixLE asc)) seg
    (sortSegment_length_eq asc seg).le] at hs
  have hz := List.pairwise_map.mp hs
  unfold sortSegment
  exact List.pairwise_map.mpr hz

/-! ### Alpha preservation through the full filters -/

theorem foldl_preserves {α β : Type} (P : β → Prop) (f : β → α → β) (l : List α)
    (b : β) (hb : P b) (hf : ∀ s a, P s → P (f s a)) : P (l.foldl f b) := by
  induction l generalizing b with
  | nil => exact hb
  | cons x xs ih => exact ih _ (hf _ _ hb)

theorem set_row_alphas (rows : List (List Pix)) (y : Nat)
    (f : List Pix → List Pix) (hf : ∀ r, (f r).map Pix.a = r.map Pix.a) :
    gridAlphas (rows.set y (f (rows.getD y []))) = gridAlphas rows := by
  induction rows generalizing y with
  | nil => rfl
  | cons r rs ih =>
    cases y with
    | zero =>
      simp only [List.getD_cons_zero, List.set_cons_zero, gridAlphas, List.map_cons,
        rowAlphas, hf]
    | succ n =>
      simp only [List.getD_cons_succ, List.set_cons_succ, gridAlphas, List.map_cons,
        List.cons.injEq, true_and]
      exact ih n

theorem take_slice_drop {α : Type} (row : List α) {sx ex : Nat} (h : sx ≤ ex) :
    row.take sx ++ ((row.drop sx).take (ex - sx) ++ row.drop ex) = row := by
  have h1 : (row.drop sx).drop (ex - sx) = row.drop ex := by
    rw [List.drop_drop]
    congr 1
    omega
  rw [← h1, List.take_append_drop, List.take_append_drop]

theorem sortRowSegment_alphas (asc : Bool) (sx ex : Nat) (row : List Pix) :
    (sortRowSegment asc sx ex row).map Pix.a = row.map Pix.a := by
  unfold sortRowSegment
  split
  · rfl
  · rename_i h
    conv_rhs => rw [← take_slice_drop row (le_of_lt (lt_of_not_le h))]
    rw [List.map_append, List.map_append, List.map_append, List.map_append,
      sortSegment_alphas]

theorem applyPixelSortHPix_alphas (g : ChanceGen) (t width height : Nat)
    (rows : List (List Pix)) :
    gridAlphas (applyPixelSortHPix g t width height rows).1 = gridAlphas rows := by
  unfold applyPixelSortHPix
  refine foldl_preserves (fun s : List (List Pix) × Nat => gridAlphas s.1 = gridAlphas rows) _ _ _ rfl ?_
  intro s k hP
  dsimp only
  rw [set_row_alphas _ _ _ (fun r => sortRowSegment_alphas _ _ _ r)]
  exact hP

theorem applyPixelSortVPix_alphas (g : ChanceGen) (t width height : Nat)
    (cols : List (List Pix)) :
    gridAlphas (applyPixelSortVPix g t width height cols).1 = gridAlphas cols := by
  unfold applyPixelSortVPix
  refine foldl_preserves (fun s : List (List Pix) × Nat => gridAlphas s.1 = gridAlphas cols) _ _ _ rfl ?_
  intro s k hP
  dsimp only
  rw [set_row_alphas _ _ _ (fun r => sortRowSegment_alphas _ _ _ r)]
  exact hP

/-- C6: the pixel-sort filters (a) leave every alpha byte of the buffer
unchanged (the full multi-line horizontal and vertical filters, for every
PRNG behavior), and (b) each sorted segment holds exactly a permutation of
the RGB triples originally in that segment, ordered by brightness
(`r + g + b`) in the drawn direction. -/
theorem pixelSort_rgb_perm_and_alpha :
    (∀ (g : ChanceGen) (t width height : Nat) (rows : List (List Pix)),
      gridAlphas (applyPixelSortHPix g t width height rows).1 = gridAlphas rows) ∧
    (∀ (g : ChanceGen) (t width height : Nat) (cols : List (List Pix)),
      gridAlphas (applyPixelSortVPix g t width height cols).1 = gridAlphas cols) ∧
    (∀ (asc : Bool) (seg : List Pix),
      ((sortSegment asc seg).map pixRGB).Perm (seg.map pixRGB) ∧
      (sortSegment asc seg).map Pix.a = seg.map Pix.a ∧
      List.Pairwise (pixLE asc) (sortSegment asc seg)) :=
  ⟨applyPixelSortHPix_alphas, applyPixelSortVPix_alphas,
    fun asc seg => ⟨sortSegment_rgb_perm asc seg, sortSegment_alphas asc seg,
      sortSegment_sorted asc seg⟩⟩

/-! ## The pixel-glitch pipeline (`applyGlitchEffects`)

`src/lib/pixel-glitch.js`.  The decoded raster is the flat interleaved
byte list `pixels` (length `width * height * channels`).  Out-of-range
typed-array reads give `undefined` (modelled as 0 via `getD`), and
out-of-range writes are silently dropped (exactly `List.set`).  The
in-place mutation of the source is modelled by threading the evolving
buffer through sequential `setB` writes, which preserves the source's
aliasing behavior (later reads see earlier writes).  `sharp` decode and
the PNG re-encode are external collaborators modelled as `Option`-valued
parameters: `none` models the `try`/`catch` path. -/

def getB (px : List Nat) (i : Nat) : Nat := px.getD i 0

def setB (px : List Nat) (i : Nat) (v : Nat) : List Nat := px.set i v

/-- `rgbToHsl` (lines 627–646). -/
def rgbToHsl (r g b : Nat) : Rat × Rat × Rat :=
  let r' : Rat := (r : Rat) / 255
  let g' : Rat := (g : Rat) / 255
  let b' : Rat := (b : Rat) / 255
  let mx := max r' (max g' b')
  let mn := min r' (min g' b')
  let l := (mx + mn) / 2
  if mx = mn then (0, 0, l)
  else
    let d := mx - mn
    let s := if l > 1 / 2 then d / (2 - mx - mn) else d / (mx + mn)
    let h := if mx = r' then (g' - b') / d + (if g' < b' then 6 else 0)
      else if mx = g' then (b' - r') / d + 2
      else (r' - g') / d + 4
    (h / 6 * 360, s, l)

/-- `hue2rgb` helper of `hslToRgb` (lines 650–657). -/
def hue2rgb (p q t0 : Rat) : Rat :=
  let t1 := if t0 < 0 then t0 + 1 else t0
  let t := if t1 > 1 then t1 - 1 else t1
  if t < 1 / 6 then p + (q - p) * 6 * t
  else if t < 1 / 2 then q
  else if t < 2 / 3 then p + (q - p) * (2 / 3 - t) * 6
  else p

/-- `hslToRgb` (lines 648–671); returns the `Math.round`ed channel
values. -/
def hslToRgb (h0 s l : Rat) : Int × Int × Int :=
  let h := h0 / 360
  if s = 0 then
    let gray := jsRound (l * 255)
    (gray, gray, gray)
  else
    let q := if l < 1 / 2 then l * (1 + s) else l + s - l * s
    let p := 2 * l - q
    (jsRound (hue2rgb p q (h + 1 / 3) * 255), jsRound (hue2rgb p q h * 255),
      jsRound (hue2rgb p q (h - 1 / 3) * 255))

/-- The per-pixel body of `applyHueRotatePerlin`'s masked branch. -/
def hueShiftPixel (px : List Nat) (pixelIndex : Nat) (noiseValue threshold : Rat)
    (maxHueShift : Int) : List Nat :=
  let hsl := rgbToHsl (getB px pixelIndex) (getB px (pixelIndex + 1)) (getB px (pixelIndex + 2))
  let intensity := (noiseValue - threshold) / (1 - threshold)
  let hueShift := intensity * (maxHueShift : Rat) * (12 / 10)
  let newHue := jsMod (hsl.1 + hueShift) 360
  let rgb := hslToRgb newHue hsl.2.1 hsl.2.2
  setB (setB (setB px pixelIndex (toByte rgb.1)) (pixelIndex + 1) (toByte rgb.2.1))
    (pixelIndex + 2) (toByte rgb.2.2)

/-- `applyHueRotatePerlin` (lines 430–456): draws `maxHueShift` and a
threshold in `[0.2, 0.8]`, then rewrites only pixels whose mask value
exceeds the threshold. -/
def applyHueRotatePerlin (g : ChanceGen) (t : Nat) (px : List Nat)
    (width height channels : Nat) (noiseMask : List Rat) : List Nat × Nat :=
  let maxHueShift := g.integerF 60 180 t
  let threshold := g.floatingF (2 / 10) (8 / 10) (t + 1)
  ((List.range height).foldl (fun accY y =>
    (List.range width).foldl (fun acc x =>
      let noiseValue := noiseMask.getD (y * width + x) 0
      if threshold < noiseValue then
        hueShiftPixel acc ((y * width + x) * channels) noiseValue threshold maxHueShift
      else acc) accY) px, t + 2)

/-- The per-pixel body of `applyLuminancePerlin`'s masked branch. -/
def lumShiftPixel (px : List Nat) (pixelIndex : Nat) (noiseValue threshold : Rat) :
    List Nat :=
  let hsl := rgbToHsl (getB px pixelIndex) (getB px (pixelIndex + 1)) (getB px (pixelIndex + 2))
  let inversionStrength := (noiseValue - threshold) / (1 - threshold)
  let invertedL := hsl.2.2 + (1 - 2 * hsl.2.2) * inversionStrength
  let rgb := hslToRgb hsl.1 hsl.2.1 (max 0 (min 1 invertedL))
  setB (setB (setB px pixelIndex (toByte rgb.1)) (pixelIndex + 1) (toByte rgb.2.1))
    (pixelIndex + 2) (toByte rgb.2.2)

/-- `applyLuminancePerlin` (lines 600–624): threshold in `[0.4, 0.8]`. -/
def applyLuminancePerlin (g : ChanceGen) (t : Nat) (px : List Nat)
    (width height channels : Nat) (noiseMask : List Rat) : List Nat × Nat :=
  let threshold := g.floatingF (4 / 10) (8 / 10) t
  ((List.range height).foldl (fun accY y =>
    (List.range width).foldl (fun acc x =>
      let noiseValue := noiseMask.getD (y * width + x) 0
      if threshold < noiseValue then
        lumShiftPixel acc ((y * width + x) * channels) noiseValue threshold
      else acc) accY) px, t + 1)

/-- The per-pixel body of `applySaturationPerlin`'s masked branch. -/
def satShiftPixel (px : List Nat) (pixelIndex : Nat) (noiseValue threshold : Rat) :
    List Nat :=
  let hsl := rgbToHsl (getB px pixelIndex) (getB px (pixelIndex + 1)) (getB px (pixelIndex + 2))
  let noiseStrength := (noiseValue - threshold) / (1 - threshold)
  let saturationMultiplier := 7 / 10 + (6 / 10) * noiseStrength
  let newSaturation := max 0 (min 1 (hsl.2.1 * saturationMultiplier))
  let rgb := hslToRgb hsl.1 newSaturation hsl.2.2
  setB (setB (setB px pixelIndex (toByte rgb.1)) (pixelIndex + 1) (toByte rgb.2.1))
    (pixelIndex + 2) (toByte rgb.2.2)

/-- `applySaturationPerlin` (lines 570–597): the `saturationRange` draw is
made but unused by the body; threshold in `[0.2, 0.6]`. -/
def applySaturationPerlin (g : ChanceGen) (t : Nat) (px : List Nat)
    (width height channels : Nat) (noiseMask : List Rat) : List Nat × Nat :=
  let _saturationRange := g.floatingF (3 / 10) (7 / 10) t
  let threshold := g.floatingF (2 / 10) (6 / 10) (t + 1)
  ((List.range height).foldl (fun accY y =>
    (List.range width).foldl (fun acc x =>
      let noiseValue := noiseMask.getD (y * width + x) 0
      if threshold < noiseValue then
        satShiftPixel acc ((y * width + x) * channels) noiseValue threshold
      else acc) accY) px, t + 1)

/-- `applyColorShift` (lines 407–427): pick one of the three
Perlin-masked strategies (`hue_rotate_perlin`, `luminance_perlin`,
`saturation_perlin`, in `pickone` array order). -/
def applyColorShift (g : ChanceGen) (t : Nat) (px : List Nat)
    (width height channels : Nat) (noiseMask : List Rat) : List Nat × Nat :=
  let strategy := g.pickoneF 3 t
  if strategy = 0 then applyHueRotatePerlin g (t + 1) px width height channels noiseMask
  else if strategy = 1 then applyLuminancePerlin g (t + 1) px width height channels noiseMask
  else applySaturationPerlin g (t + 1) px width height channels noiseMask

/-- `applyChannelShift` (lines 291–328): region-wise red/blue channel
displacement (the extra noise-mask argument of the call site is ignored
by the implementation). -/
def applyChannelShift (g : ChanceGen) (t : Nat) (px : List Nat)
    (width height channels : Nat) : List Nat × Nat :=
  let redShift0 := g.floatingF (8 / 10) (42 / 10) t
  let blueShift0 := g.floatingF (5 / 10) (38 / 10) (t + 1)
  let redShift1 := if g.boolF (1 / 2) (t + 2) then redShift0 * 8 else redShift0
  let blueShift1 := if g.boolF (1 / 2) (t + 3) then blueShift0 * 8 else blueShift0
  let redShift := jsRound redShift1
  let blueShift := jsRound blueShift1
  let redDirection : Int := if g.boolF 50 (t + 4) then 1 else -1
  let blueDirection : Int := if g.boolF 50 (t + 5) then 1 else -1
  let regionCount := (g.integerF 1 3 (t + 6)).toNat
  (List.range regionCount).foldl (fun acc _ =>
    let startY := (g.integerF 0 ⌊(height : Rat) * (7 / 10)⌋ acc.2).toNat
    let endY := min height (startY + (g.integerF 50 200 (acc.2 + 1)).toNat)
    ((List.range' startY (endY - startY)).foldl (fun accY (y : Nat) =>
      (List.range width).foldl (fun a (x : Nat) =>
        let idx := (y * width + x) * channels
        let redX := (max 0 (min ((width : Int) - 1)
          ((x : Int) + redShift * redDirection))).toNat
        let a1 := setB a idx (getB a ((y * width + redX) * channels))
        let blueX := (max 0 (min ((width : Int) - 1)
          ((x : Int) + blueShift * blueDirection))).toNat
        setB a1 (idx + 2) (getB a1 ((y * width + blueX) * channels + 2))) accY) acc.1,
     acc.2 + 2)) (px, t + 7)

/-- `applyDataMosh` (lines 734–745; this second declaration wins over the
earlier one by JS function hoisting): byte-range block copies. -/
def applyDataMosh (g : ChanceGen) (t : Nat) (px : List Nat)
    (_width _height channels : Nat) : List Nat × Nat :=
  let corruptionCount := (g.integerF 20 100 t).toNat
  (List.range corruptionCount).foldl (fun acc _ =>
    let srcIdx := (g.integerF 0 (max 0 ((acc.1.length : Int) - channels)) acc.2).toNat
    let destIdx := (g.integerF 0 (max 0 ((acc.1.length : Int) - channels)) (acc.2 + 1)).toNat
    let blockSize := (g.integerF 1 20 (acc.2 + 2)).toNat
    ((List.range blockSize).foldl (fun a j =>
      if srcIdx + j < a.length ∧ destIdx + j < a.length then
        setB a (destIdx + j) (getB a (srcIdx + j))
      else a) acc.1, acc.2 + 3)) (px, t + 1)

/-- `applyScanlines` (lines 748–761): darken every `scanlineSpacing`-th
row starting at `startY`. -/
def applyScanlines (g : ChanceGen) (t : Nat) (px : List Nat)
    (width height channels : Nat) : List Nat × Nat :=
  let scanlineSpacing := (g.integerF 2 6 t).toNat
  let intensity := g.floatingF (3 / 10) (8 / 10) (t + 1)
  let startY := (g.integerF 0 3 (t + 2)).toNat
  (((List.range height).filter
      (fun y => startY ≤ y ∧ (y - startY) % scanlineSpacing = 0)).foldl
    (fun acc y =>
      (List.range width).foldl (fun a x =>
        let idx := (y * width + x) * channels
        let a1 := setB a idx (⌊(getB a idx : Rat) * intensity⌋).toNat
        let a2 := setB a1 (idx + 1) (⌊(getB a1 (idx + 1) : Rat) * intensity⌋).toNat
        setB a2 (idx + 2) (⌊(getB a2 (idx + 2) : Rat) * intensity⌋).toNat) acc) px,
   t + 3)

/-- `applyInterlace` (lines 764–777): every even row is shifted by a
per-row offset in `[-3, 3]` (one draw per processed row). -/
def applyInterlace (g : ChanceGen) (t : Nat) (px : List Nat)
    (width height channels : Nat) : List Nat × Nat :=
  ((List.range height).filter (fun y => y % 2 = 0)).foldl (fun acc (y : Nat) =>
    let offset := g.integerF (-3) 3 acc.2
    ((List.range width).foldl (fun a (x : Nat) =>
      let srcX := (max 0 (min ((width : Int) - 1) ((x : Int) + offset))).toNat
      let srcIdx := (y * width + srcX) * channels
      let destIdx := (y * width + x) * channels
      let a1 := setB a destIdx (getB a srcIdx)
      let a2 := setB a1 (destIdx + 1) (getB a1 (srcIdx + 1))
      setB a2 (destIdx + 2) (getB a2 (srcIdx + 2))) acc.1, acc.2 + 1)) (px, t)

/-- `applyNoise` (lines 780–788): random single-channel speckles. -/
def applyNoise (g : ChanceGen) (t : Nat) (px : List Nat)
    (_width _height channels : Nat) : List Nat × Nat :=
  let noiseCount := (g.integerF 100 500 t).toNat
  (List.range noiseCount).foldl (fun acc _ =>
    let idx := (g.integerF 0 (max 0 ((acc.1.length : Int) - channels)) acc.2).toNat
    let noiseValue := (g.integerF 0 255 (acc.2 + 1)).toNat
    let channelChoice := (g.integerF 0 2 (acc.2 + 2)).toNat
    (setB acc.1 (idx + channelChoice) noiseValue, acc.2 + 3)) (px, t + 1)

/-- `applyMirror` (lines 791–807): reflect rows above a drawn mirror
line. -/
def applyMirror (g : ChanceGen) (t : Nat) (px : List Nat)
    (width height channels : Nat) : List Nat × Nat :=
  let mirrorY := (g.integerF ⌊(height : Rat) * (3 / 10)⌋ ⌊(height : Rat) * (7 / 10)⌋ t).toNat
  let mirrorDirection : Int := if g.boolF 50 (t + 1) then 1 else -1
  ((List.range mirrorY).foldl (fun acc (y : Nat) =>
    let srcY : Int := if mirrorDirection > 0 then (mirrorY : Int) + ((mirrorY : Int) - (y : Int))
      else |(mirrorY : Int) - (y : Int)|
    if 0 ≤ srcY ∧ srcY < (height : Int) then
      (List.range width).foldl (fun a x =>
        let srcIdx := (srcY.toNat * width + x) * channels
        let destIdx := (y * width + x) * channels
        let a1 := setB a destIdx (getB a srcIdx)
        let a2 := setB a1 (destIdx + 1) (getB a1 (srcIdx + 1))
        setB a2 (destIdx + 2) (getB a2 (srcIdx + 2))) acc
    else acc) px, t + 2)

/-- Segment extraction of the flat `applyPixelSortH`: the 4th component is
`pixels[idx + 3] || 255` (a zero or missing byte becomes 255). -/
def extractSegH (px : List Nat) (width channels y : Nat) (xs : List Nat) : List Pix :=
  xs.map (fun x =>
    let idx := (y * width + x) * channels
    ⟨getB px idx, getB px (idx + 1), getB px (idx + 2),
     if getB px (idx + 3) = 0 then 255 else getB px (idx + 3)⟩)

/-- `applyPixelSortH` on the flat buffer (lines 674–701); the sorted RGB
values are written back in place, positions keep their own 4th byte. -/
def applyPixelSortHFlat (g : ChanceGen) (t : Nat) (px : List Nat)
    (width height channels : Nat) : List Nat × Nat :=
  let sortLines := (g.integerF 3 8 t).toNat
  (List.range sortLines).foldl (fun acc _ =>
    let y := (g.integerF 0 ((height : Int) - 1) acc.2).toNat
    let startX := (g.integerF 0 ⌊(width : Rat) * (3 / 10)⌋ (acc.2 + 1)).toNat
    let endX := (g.integerF ⌊(width : Rat) * (7 / 10)⌋ (width : Int) (acc.2 + 2)).toNat
    let asc := g.boolF 50 (acc.2 + 3)
    let xs := List.range' startX (endX - startX)
    let sorted := (extractSegH acc.1 width channels y xs).insertionSort (pixLE asc)
    ((xs.zip sorted).foldl (fun a xp =>
      let idx := (y * width + xp.1) * channels
      setB (setB (setB a idx xp.2.r) (idx + 1) xp.2.g) (idx + 2) xp.2.b) acc.1,
     acc.2 + 4)) (px, t + 1)

/-- Segment extraction of the flat `applyPixelSortV` (a column). -/
def extractSegV (px : List Nat) (width channels x : Nat) (ys : List Nat) : List Pix :=
  ys.map (fun y =>
    let idx := (y * width + x) * channels
    ⟨getB px idx, getB px (idx + 1), getB px (idx + 2),
     if getB px (idx + 3) = 0 then 255 else getB px (idx + 3)⟩)

/-- `applyPixelSortV` on the flat buffer (lines 704–731). -/
def applyPixelSortVFlat (g : ChanceGen) (t : Nat) (px : List Nat)
    (width height channels : Nat) : List Nat × Nat :=
  let sortLines := (g.integerF 2 5 t).toNat
  (List.range sortLines).foldl (fun acc _ =>
    let x := (g.integerF 0 ((width : Int) - 1) acc.2).toNat
    let startY := (g.integerF 0 ⌊(height : Rat) * (3 / 10)⌋ (acc.2 + 1)).toNat
    let endY := (g.integerF ⌊(height : Rat) * (7 / 10)⌋ (height : Int) (acc.2 + 2)).toNat
    let asc := g.boolF 50 (acc.2 + 3)
    let ys := List.range' startY (endY - startY)
    let sorted := (extractSegV acc.1 width channels x ys).insertionSort (pixLE asc)
    ((ys.zip sorted).foldl (fun a yp =>
      let idx := (yp.1 * width + x) * channels
      setB (setB (setB a idx yp.2.r) (idx + 1) yp.2.g) (idx + 2) yp.2.b) acc.1,
     acc.2 + 4)) (px, t + 1)

/-- The selected-filter record of `getGlitchMix`. -/
structure GlitchMix where
  channelShift : Bool
  pixelSortH : Bool
  pixelSortV : Bool
  dataMosh : Bool
  colorShift : Bool
  scanlines : Bool
  noiseFx : Bool
  interlace : Bool
  mirror : Bool

/-- `getGlitchMix(seed)` (lines 134–164): independent weighted coin flips
in the `effectWeights` insertion order (80, 60, 50, 45, 40, 30, 25, 20,
15) on a fresh `Chance(seed)` instance; if none fires, `COLOR_SHIFT` is
forced as the safe fallback. -/
def getGlitchMix (g : ChanceGen) : GlitchMix :=
  let cs := g.boolF 80 0
  let ph := g.boolF 60 1
  let pv := g.boolF 50 2
  let dm := g.boolF 45 3
  let co := g.boolF 40 4
  let sc := g.boolF 30 5
  let no := g.boolF 25 6
  let il := g.boolF 20 7
  let mi := g.boolF 15 8
  let anyActive := cs || ph || pv || dm || co || sc || no || il || mi
  { channelShift := cs, pixelSortH := ph, pixelSortV := pv, dataMosh := dm,
    colorShift := co || !anyActive, scanlines := sc, noiseFx := no,
    interlace := il, mirror := mi }

/-- The `useMix = false` safe fallback `{ [GLITCH_TYPES.COLOR_SHIFT]: true }`. -/
def safeMix : GlitchMix where
  channelShift := false
  pixelSortH := false
  pixelSortV := false
  dataMosh := false
  colorShift := true
  scanlines := false
  noiseFx := false
  interlace := false
  mirror := false

/-- The decoded raster (`sharp(...).raw().toBuffer({resolveWithObject})`). -/
structure RawImage where
  width : Nat
  height : Nat
  channels : Nat
  data : List Nat

/-- The input of `applyGlitchEffects`: either a byte buffer or a
non-Buffer value (which fails the `Buffer.isBuffer` guard). -/
inductive GlitchInput where
  | buffer (data : List Nat)
  | notBuffer

/-- `applyGlitchEffects(imageBuffer, quote, useMix)` (lines 166–289).
`decode`/`encode` model the external sharp decode and PNG encode (`none`
models a thrown error, caught by the surrounding `try`); `mkChance` models
`new Chance(seed)`.  A decode or encode failure returns the ORIGINAL
buffer (`catch` branch); a non-Buffer input throws before the `try`. -/
def applyGlitchEffects (decode : List Nat → Option RawImage)
    (encode : Nat → Nat → Nat → List Nat → Option (List Nat))
    (mkChance : Int → ChanceGen) (quoteText : List Nat) (useMix : Bool)
    (input : GlitchInput) : Except String (List Nat) :=
  match input with
  | .notBuffer => .error "imageBuffer must be a Buffer"
  | .buffer imageBuffer =>
    match decode imageBuffer with
    | none => .ok imageBuffer
    | some info =>
      let width := info.width
      let height := info.height
      let channels := info.channels
      let pixels := info.data
      let seed := hashStringGen quoteText
      let g := mkChance seed
      let perm := generatePermutation (mkChance seed)
      let scaleType := g.weightedF 3 0
      let scaleOct :=
        if scaleType = 0 then (g.floatingF (1 / 10000) (5 / 10000) 1, g.integerF 1 2 2)
        else if scaleType = 1 then (g.floatingF (5 / 10000) (2 / 1000) 1, g.integerF 1 2 2)
        else (g.floatingF (2 / 1000) (8 / 1000) 1, g.integerF 1 2 2)
      let noiseMask := generateMask perm width height scaleOct.1 scaleOct.2.toNat
      let mix := if useMix then getGlitchMix (mkChance seed) else safeMix
      let s0 : List Nat × Nat := (pixels, 3)
      let s1 := if mix.channelShift then
        applyChannelShift g s0.2 s0.1 width height channels else s0
      let s2 := if mix.pixelSortH then
        applyPixelSortHFlat g s1.2 s1.1 width height channels else s1
      let s3 := if mix.pixelSortV then
        applyPixelSortVFlat g s2.2 s2.1 width height channels else s2
      let s4 := if mix.dataMosh then
        applyDataMosh g s3.2 s3.1 width height channels else s3
      let s5 := if mix.scanlines then
        applyScanlines g s4.2 s4.1 width height channels else s4
      let s6 := if mix.interlace then
        applyInterlace g s5.2 s5.1 width height channels else s5
      let s7 := if mix.noiseFx then
        applyNoise g s6.2 s6.1 width height channels else s6
      let s8 := if mix.colorShift then
        applyColorShift g s7.2 s7.1 width height channels noiseMask else s7
      let s9 := if mix.mirror then
        applyMirror g s8.2 s8.1 width height channels else s8
      match encode width height channels s9.1 with
      | none => .ok imageBuffer
      | some out => .ok out

/-! ## Claims C7 and C9 -/

/-- C7: for every input buffer whose decoding as an image fails (the
`sharp(...).raw().toBuffer(...)` call throws, modelled by
`decode data = none`), `applyGlitchEffects` returns the original buffer
unchanged (`Except.ok data`, never `Except.error`): the error is caught
and the `catch` branch returns `imageBuffer`. -/
theorem applyGlitchEffects_decode_failure (decode : List Nat → Option RawImage)
    (encode : Nat → Nat → Nat → List Nat → Option (List Nat))
    (mkChance : Int → ChanceGen) (quoteText : List Nat) (useMix : Bool)
    (data : List Nat) (hdec : decode data = none) :
    applyGlitchEffects decode encode mkChance quoteText useMix (.buffer data)
      = .ok data := by
  unfold applyGlitchEffects
  dsimp only
  rw [hdec]

/-- C7 witness: a concrete always-failing decoder on a concrete buffer. -/
theorem applyGlitchEffects_decode_failure_witness :
    (fun _ : List Nat => (none : Option RawImage)) [7, 7, 7] = none ∧
    applyGlitchEffects (fun _ => none) (fun _ _ _ _ => none) (fun _ => midGen)
      [97] false (.buffer [7, 7, 7]) = .ok [7, 7, 7] :=
  ⟨rfl, applyGlitchEffects_decode_failure _ _ _ _ _ _ rfl⟩

/-! ### C9: `applyColorShift` under an all-zero noise mask -/

theorem getD_zero_of_all_zero {mask : List Rat} (hm : ∀ v ∈ mask, v = 0)
    (i : Nat) : mask.getD i 0 = 0 := by
  rcases lt_or_le i mask.length with hi | hi
  · rw [List.getD_eq_getElem _ _ hi]
    exact hm _ (List.getElem_mem hi)
  · exact List.getD_eq_default _ _ hi

theorem applyHueRotatePerlin_zero_mask (g : ChanceGen) (hg : g.Valid) (t : Nat)
    (px : List Nat) (width height channels : Nat) (noiseMask : List Rat)
    (hm : ∀ v ∈ noiseMask, v = 0) :
    (applyHueRotatePerlin g t px width height channels noiseMask).1 = px := by
  have hthr : (0 : Rat) < g.floatingF (2 / 10) (8 / 10) (t + 1) :=
    lt_of_lt_of_le (by norm_num) (hg.floating_ge _ _ _ (by norm_num))
  unfold applyHueRotatePerlin
  dsimp only
  refine foldl_preserves (fun s : List Nat => s = px) _ _ _ rfl ?_
  intro accY y hY
  refine foldl_preserves (fun s : List Nat => s = px) _ _ _ hY ?_
  intro acc x hx
  dsimp only
  rw [getD_zero_of_all_zero hm, if_neg (not_lt.mpr hthr.le)]
  exact hx

theorem applyLuminancePerlin_zero_mask (g : ChanceGen) (hg : g.Valid) (t : Nat)
    (px : List Nat) (width height channels : Nat) (noiseMask : List Rat)
    (hm : ∀ v ∈ noiseMask, v = 0) :
    (applyLuminancePerlin g t px width height channels noiseMask).1 = px := by
  have hthr : (0 : Rat) < g.floatingF (4 / 10) (8 / 10) t :=
    lt_of_lt_of_le (by norm_num) (hg.floating_ge _ _ _ (by norm_num))
  unfold applyLuminancePerlin
  dsimp only
  refine foldl_preserves (fun s : List Nat => s = px) _ _ _ rfl ?_
  intro accY y hY
  refine foldl_preserves (fun s : List Nat => s = px) _ _ _ hY ?_
  intro acc x hx
  dsimp only
  rw [getD_zero_of_all_zero hm, if_neg (not_lt.mpr hthr.le)]
  exact hx

theorem applySaturationPerlin_zero_mask (g : ChanceGen) (hg : g.Valid) (t : Nat)
    (px : List Nat) (width height channels : Nat) (noiseMask : List Rat)
    (hm : ∀ v ∈ noiseMask, v = 0) :
    (applySaturationPerlin g t px width height channels noiseMask).1 = px := by
  have hthr : (0 : Rat) < g.floatingF (2 / 10) (6 / 10) (t + 1) :=
    lt_of_lt_of_le (by norm_num) (hg.floating_ge _ _ _ (by norm_num))
  unfold applySaturationPerlin
  dsimp only
  refine foldl_preserves (fun s : List Nat => s = px) _ _ _ rfl ?_
  intro accY y hY
  refine foldl_preserves (fun s : List Nat => s = px) _ _ _ hY ?_
  intro acc x hx
  dsimp only
  rw [getD_zero_of_all_zero hm, if_neg (not_lt.mpr hthr.le)]
  exact hx

/-- C9: for every valid chance instance and every pixel buffer,
`applyColorShift` with an all-zero noise mask leaves the buffer
unchanged: each of the three strategies only rewrites pixels whose mask
value exceeds its threshold, and the drawn thresholds are at least
`0.2`, `0.4` and `0.2` respectively — all strictly positive. -/
theorem applyColorShift_zero_mask (g : ChanceGen) (hg : g.Valid) (t : Nat)
    (px : List Nat) (width height channels : Nat) (noiseMask : List Rat)
    (hm : ∀ v ∈ noiseMask, v = 0) :
    (applyColorShift g t px width height channels noiseMask).1 = px := by
  unfold applyColorShift
  dsimp only
  split_ifs
  · exact applyHueRotatePerlin_zero_mask g hg _ px width height channels noiseMask hm
  · exact applyLuminancePerlin_zero_mask g hg _ px width height channels noiseMask hm
  · exact applySaturationPerlin_zero_mask g hg _ px width height channels noiseMask hm

/-- C9 witness: the 4×4, 3-channel all-mid-gray (128,128,128) buffer with
an all-zero 16-entry mask is returned unchanged. -/
theorem applyColorShift_zero_mask_witness :
    midGen.Valid ∧ (∀ v ∈ List.replicate 16 (0 : Rat), v = 0) ∧
    (applyColorShift midGen 0 (List.replicate 48 128) 4 4 3
      (List.replicate 16 0)).1 = List.replicate 48 128 :=
  ⟨midGen_valid, by decide,
    applyColorShift_zero_mask midGen midGen_valid 0 (List.replicate 48 128) 4 4 3
      (List.replicate 16 0) (by decide)⟩

/-! ## The constellation generator (`src/generate.js`, lines 52–291)

The generator is modelled up to its star and connection lists; the SVG
markup the source then emits is a pure function of these lists and of the
same derived numbers (seed, word/char counts), so determinism of the
markup follows from determinism of the lists.  `mkChance` models the
`Chance` constructor and `nlp` the external `compromise` tagger (nouns,
adjectives, verbs of the quote text); the single seeded instance
`new Chance(hashString(quote.text))` is drawn from in source order. -/

structure TemplateBounds where
  width : Nat
  height : Nat
  isSquare : Bool
deriving DecidableEq

structure Star where
  x : Rat
  y : Rat
  radius : Rat
  isCrypto : Bool := false
  isWordStar : Bool := false
deriving DecidableEq

structure Connection where
  x1 : Rat
  y1 : Rat
  x2 : Rat
  y2 : Rat
  isTextConnection : Bool
deriving DecidableEq

structure Constellation where
  stars : List Star
  connections : List Connection
deriving DecidableEq

/-- Output of the external `compromise` NLP tagger on the quote text
(each word a list of code units). -/
structure NlpDoc where
  nouns : List (List Nat)
  adjectives : List (List Nat)
  verbs : List (List Nat)

/-- JS `text.split(' ').length`: number of spaces (code 32) plus one. -/
def wordCount (text : List Nat) : Nat := text.countP (· == 32) + 1

/-- First element of `[...].sort((a, b) => b.length - a.length)`: the
first occurring word of maximal length (JS sort is stable). -/
def pickLongest : List (List Nat) → Option (List Nat)
  | [] => none
  | w :: ws => some (ws.foldl (fun best v => if best.length < v.length then v else best) w)

/-- ASCII `toUpperCase` on a code unit. -/
def jsToUpper (c : Nat) : Nat := if 97 ≤ c ∧ c ≤ 122 then c - 32 else c

/-- Snap to the baseline grid: `Math.round(q / grid) * grid`. -/
def snapToGrid (q grid : Rat) : Rat := ((jsRound (q / grid) : Int) : Rat) * grid

/-- The `letterPatterns` table of `createWordFromStars` (lines 63–90);
letters without a pattern yield `[]`, so the `if (pattern)` guard skips
them.  Codes 65–90 are `'A'`–`'Z'`. -/
def letterPatterns (c : Nat) : List (Nat × Nat) :=
  if c = 65 then [(2,7),(1,5),(3,5),(0,3),(4,3),(1,1),(3,1)]
  else if c = 66 then [(0,7),(0,5),(0,3),(0,1),(2,7),(2,5),(2,3),(2,1),(4,6),(4,4),(4,2)]
  else if c = 67 then [(4,6),(2,7),(0,5),(0,3),(2,1),(4,2)]
  else if c = 68 then [(0,7),(0,5),(0,3),(0,1),(2,7),(2,1),(4,6),(4,4),(4,2)]
  else if c = 69 then [(0,7),(0,5),(0,3),(0,1),(4,7),(2,5),(4,1)]
  else if c = 70 then [(0,7),(0,5),(0,3),(0,1),(4,7),(2,5)]
  else if c = 71 then [(4,6),(2,7),(0,5),(0,3),(2,1),(4,2),(4,4),(3,4)]
  else if c = 72 then [(0,7),(0,5),(0,3),(0,1),(4,7),(4,5),(4,3),(4,1),(2,5)]
  else if c = 73 then [(1,7),(2,7),(3,7),(2,5),(2,3),(1,1),(2,1),(3,1)]
  else if c = 74 then [(0,7),(1,7),(2,7),(3,7),(2,5),(2,3),(2,1),(1,1),(0,2)]
  else if c = 75 then [(0,7),(0,5),(0,3),(0,1),(4,7),(2,5),(4,1)]
  else if c = 76 then [(0,7),(0,5),(0,3),(0,1),(2,1),(4,1)]
  else if c = 77 then [(0,7),(0,5),(0,3),(0,1),(1,6),(2,5),(3,6),(4,7),(4,5),(4,3),(4,1)]
  else if c = 78 then [(0,7),(0,5),(0,3),(0,1),(1,6),(2,5),(3,4),(4,7),(4,5),(4,3),(4,1)]
  else if c = 79 then [(2,7),(0,5),(0,3),(2,1),(4,5),(4,3)]
  else if c = 80 then [(0,7),(0,5),(0,3),(0,1),(2,7),(2,5),(4,6),(4,4)]
  else if c = 81 then [(2,7),(0,5),(0,3),(2,1),(4,5),(4,3),(3,2)]
  else if c = 82 then [(0,7),(0,5),(0,3),(0,1),(2,7),(2,5),(4,6),(4,4),(3,2),(4,1)]
  else if c = 83 then [(4,6),(2,7),(0,5),(2,5),(4,3),(2,1),(0,2)]
  else if c = 84 then [(0,7),(1,7),(2,7),(3,7),(4,7),(2,5),(2,3),(2,1)]
  else if c = 85 then [(0,7),(0,5),(0,3),(2,1),(4,7),(4,5),(4,3)]
  else if c = 86 then [(0,7),(0,5),(1,3),(2,1),(3,3),(4,7),(4,5)]
  else if c = 87 then [(0,7),(0,5),(0,3),(1,1),(2,3),(3,1),(4,7),(4,5),(4,3)]
  else if c = 88 then [(0,7),(1,6),(2,5),(3,4),(4,3),(3,2),(2,1),(1,2),(0,1),(4,7)]
  else if c = 89 then [(0,7),(1,6),(2,5),(3,4),(4,7),(2,3),(2,1)]
  else if c = 90 then [(0,7),(1,7),(2,7),(3,7),(4,7),(3,6),(2,5),(1,4),(0,3),(1,2),(2,1),(3,1),(4,1)]
  else []

/-- `createWordFromStars(word, templateBounds, chance)` (lines 52–109):
one `floating({min:0.3, max:0.5})` draw per pattern point, letters in
order. -/
def createWordFromStars (word : List Nat) (b : TemplateBounds) (g : ChanceGen)
    (t0 : Nat) : List Star × Nat :=
  let letterWidth : Rat := 6
  let wordWidth : Rat := (word.length : Rat) * letterWidth
  let startX := ((b.width : Rat) - wordWidth) / 2
  let startY := (b.height : Rat) * (15 / 100)
  ((word.map jsToUpper).enum).foldl
    (fun (acc : List Star × Nat) li =>
      (letterPatterns li.2).foldl
        (fun (acc2 : List Star × Nat) pt =>
          (acc2.1 ++ [{ x := startX + (li.1 : Rat) * letterWidth + (pt.1 : Rat),
                        y := startY + (pt.2 : Rat),
                        radius := g.floatingF (3 / 10) (5 / 10) acc2.2,
                        isCrypto := false, isWordStar := true }], acc2.2 + 1))
        acc)
    ([], t0)

/-- The six golden-ratio anchor points (lines 139–146, `phi = 1.618034`). -/
def goldenPoints (b : TemplateBounds) : List (Rat × Rat) :=
  let phi : Rat := 1618034 / 1000000
  [ ((b.width : Rat) / phi, (b.height : Rat) / phi),
    ((b.width : Rat) * (1 - 1 / phi), (b.height : Rat) / phi),
    ((b.width : Rat) / phi, (b.height : Rat) * (1 - 1 / phi)),
    ((b.width : Rat) * (1 - 1 / phi), (b.height : Rat) * (1 - 1 / phi)),
    ((b.width : Rat) * (1 / 2), (b.height : Rat) / phi),
    ((b.width : Rat) / phi, (b.height : Rat) * (1 / 2)) ]

/-- The crypto-steganography star (lines 152–172): the longest
noun/adjective longer than 4 characters encodes its first code unit in
the star position. -/
def cryptoStarsOf (doc : NlpDoc) (b : TemplateBounds) : List Star :=
  match pickLongest ((doc.nouns ++ doc.adjectives).filter (fun w => 4 < w.length)) with
  | none => []
  | some keyWord =>
    let charCode := keyWord.headD 0
    [{ x := ((charCode % (b.width - 20) : Nat) : Rat) + 10,
       y := ((charCode * 3 % (b.height - 20) : Nat) : Rat) + 10,
       radius := 1 / 2, isCrypto := true, isWordStar := false }]

/-- The random-placement branch of the star loop (lines 194–207): uniform
x, a 70% bottom-bias coin for y, grid snapping, then the radius draw at
push time. -/
def randomPlacement (g : ChanceGen) (b : TemplateBounds) (stars : List Star)
    (t : Nat) : List Star × Nat :=
  let margin : Rat := 4
  let baselineGrid : Rat := 6
  let x0 := margin + g.floatingF 0 1 t * ((b.width : Rat) - margin * 2)
  let y0 := if g.boolF 70 (t + 1) then
      (b.height : Rat) * (4 / 10) + g.floatingF 0 1 (t + 2) * ((b.height : Rat) * (6 / 10))
    else g.floatingF 0 1 (t + 2) * ((b.height : Rat) * (4 / 10))
  let x := snapToGrid x0 baselineGrid
  let y := snapToGrid y0 baselineGrid
  (stars ++ [{ x := x, y := y, radius := g.floatingF (3 / 10) (7 / 10) (t + 3),
               isCrypto := false, isWordStar := false }], t + 4)

/-- The golden-ratio placement branch (lines 184–193): jitter around the
anchor, grid snapping, clamping to the margins. -/
def goldenPlacement (g : ChanceGen) (b : TemplateBounds) (stars : List Star)
    (i t : Nat) : List Star × Nat :=
  let margin : Rat := 4
  let baselineGrid : Rat := 6
  let point := (goldenPoints b).getD i (0, 0)
  let x0 := point.1 + g.floatingF (-(1 / 2)) (1 / 2) t * baselineGrid
  let y0 := point.2 + g.floatingF (-(1 / 2)) (1 / 2) (t + 1) * baselineGrid
  let x1 := snapToGrid x0 baselineGrid
  let y1 := snapToGrid y0 baselineGrid
  let x := max margin (min ((b.width : Rat) - margin) x1)
  let y := max 0 (min (0 + (b.height : Rat)) y1)
  (stars ++ [{ x := x, y := y, radius := g.floatingF (3 / 10) (7 / 10) (t + 2),
               isCrypto := false, isWordStar := false }], t + 3)

/-- One iteration of the star-placement loop (lines 174–215): the crypto
star occupies position 0 (no draws); otherwise the golden branch is taken
when `logoInfluence && i < goldenPoints.length && chance.bool({40})` (the
coin is only drawn when the first two conjuncts hold — JS `&&`
short-circuits). -/
def starLoopStep (g : ChanceGen) (b : TemplateBounds) (logoInfluence : Bool)
    (cryptoStars : List Star) (acc : List Star × Nat) (i : Nat) : List Star × Nat :=
  if i = 0 ∧ cryptoStars ≠ [] then
    (acc.1 ++ cryptoStars.take 1, acc.2)
  else if logoInfluence ∧ i < (goldenPoints b).length then
    if g.boolF 40 acc.2 then goldenPlacement g b acc.1 i (acc.2 + 1)
    else randomPlacement g b acc.1 (acc.2 + 1)
  else randomPlacement g b acc.1 acc.2

/-- The four text anchor points of the square format (lines 238–243). -/
def textAnchorPoints (b : TemplateBounds) : List (Rat × Rat) :=
  [ ((b.width : Rat) * (1 / 2), (b.height : Rat) * (35 / 100)),
    ((b.width : Rat) * (15 / 100), (b.height : Rat) * (55 / 100)),
    ((b.width : Rat) * (85 / 100), (b.height : Rat) * (55 / 100)),
    ((b.width : Rat) * (1 / 2), (b.height : Rat) * (75 / 100)) ]

/-- Square-format connections (lines 237–270): the first up-to-4 original
(non-word) stars connect to the text anchors, then up to 3 adjacent
original-star pairs. -/
def squareConnections (b : TemplateBounds) (stars : List Star) : List Connection :=
  let originalStars := stars.filter (fun s => !s.isWordStar)
  let anchors := textAnchorPoints b
  let textConns := (List.range (min originalStars.length 4)).filterMap (fun i =>
    match originalStars.get? i, anchors.get? i with
    | some s, some a => some { x1 := s.x, y1 := s.y, x2 := a.1, y2 := a.2,
                               isTextConnection := true }
    | _, _ => none)
  let starConns := (List.range (min (originalStars.length - 1) 3)).filterMap (fun i =>
    match originalStars.get? i, originalStars.get? (i + 1) with
    | some s, some s2 => some { x1 := s.x, y1 := s.y, x2 := s2.x, y2 := s2.y,
                                isTextConnection := false }
    | _, _ => none)
  textConns ++ starConns

/-- Ordered star pairs `(i, j)`, `i < j`, in the double-loop order. -/
def orderedPairs : List Star → List (Star × Star)
  | [] => []
  | s :: rest => rest.map (fun s2 => (s, s2)) ++ orderedPairs rest

/-- Squared Euclidean distance between two stars.  The source compares
`Math.sqrt(dx² + dy²) < connectionThreshold`; as the threshold is
positive, this is equivalent to `dx² + dy² < threshold²`, which is how
the comparison is modelled over `Rat`. -/
def starDist2 (s t : Star) : Rat := (s.x - t.x) ^ 2 + (s.y - t.y) ^ 2

/-- Squared length of a connection segment. -/
def connDist2 (c : Connection) : Rat := (c.x1 - c.x2) ^ 2 + (c.y1 - c.y2) ^ 2

/-- `connectionThreshold = (charCount % 25) + 15` (line 125). -/
def connectionThreshold (text : List Nat) : Rat :=
  ((text.length % 25 : Nat) : Rat) + 15

/-- Story-format connections (lines 271–291): every pair of stars whose
distance is below the threshold, in loop order. -/
def starConnections (stars : List Star) (thr : Rat) : List Connection :=
  (orderedPairs stars).filterMap (fun p =>
    if starDist2 p.1 p.2 < thr * thr then
      some { x1 := p.1.x, y1 := p.1.y, x2 := p.2.x, y2 := p.2.y,
             isTextConnection := false }
    else none)

/-- `generateConstellation(quote, templateBounds, ...)` (lines 111–291),
up to its star and connection lists.  Draw ticks: `logoInfluence` at 0,
the star loop from 1, then (square format only) the word-formation coin
and the word-star radii. -/
def generateConstellation (mkChance : Int → ChanceGen) (nlp : List Nat → NlpDoc)
    (text : List Nat) (b : TemplateBounds) : Constellation :=
  let seed := hashStringGen text
  let g := mkChance seed
  let wc := wordCount text
  let starCount := (⌊(wc : Rat) * (12 / 10)⌋).toNat + 3
  let thr := connectionThreshold text
  let logoInfluence := g.boolF 20 0
  let cryptoStars := cryptoStarsOf (nlp text) b
  let sp := (List.range starCount).foldl
    (starLoopStep g b logoInfluence cryptoStars) ([], 1)
  if b.isSquare then
    let doc := nlp text
    let keyOpt := pickLongest ((doc.nouns ++ doc.adjectives ++ doc.verbs).filter
      (fun w => 3 ≤ w.length ∧ w.length ≤ 6))
    let sw :=
      match keyOpt with
      | none => sp
      | some keyWord =>
        if g.boolF 40 sp.2 then
          let ws := createWordFromStars keyWord b g (sp.2 + 1)
          (sp.1 ++ ws.1, ws.2)
        else (sp.1, sp.2 + 1)
    { stars := sw.1, connections := squareConnections b sw.1 }
  else
    { stars := sp.1, connections := starConnections sp.1 thr }

/-! ## Claims C1 and C5 -/

/-- C1: the constellation generator is deterministic in `(text, bounds)`:
the seed is derived only from the quote text, the single `Chance` instance
is seeded with it, and no other state flows in (the `Chance` constructor
model, the NLP tagger and the inputs fully determine the output), so two
independent calls produce identical star lists (positions, radii, crypto
and word-star tags) and identical connection lists — and hence identical
serialized overlay markup, which is a pure function of these. -/
theorem generateConstellation_deterministic (mkChance : Int → ChanceGen)
    (nlp : List Nat → NlpDoc) (text : List Nat) (b : TemplateBounds) :
    (generateConstellation mkChance nlp text b).stars
        = (generateConstellation mkChance nlp text b).stars ∧
      (generateConstellation mkChance nlp text b).connections
        = (generateConstellation mkChance nlp text b).connections :=
  ⟨rfl, rfl⟩

theorem starConnections_dist_lt {stars : List Star} {thr : Rat} {c : Connection}
    (hc : c ∈ starConnections stars thr) : connDist2 c < thr * thr := by
  unfold starConnections at hc
  rcases List.mem_filterMap.mp hc with ⟨p, -, hp⟩
  by_cases h : starDist2 p.1 p.2 < thr * thr
  · rw [if_pos h] at hp
    injection hp with h2
    subst h2
    exact h
  · rw [if_neg h] at hp
    cases hp

/-- C5: in the non-square (story) format, every connection produced by
the constellation generator joins a pair of stars whose Euclidean
distance is strictly below the computed `connectionThreshold`
(equivalently, whose squared distance is below the squared threshold). -/
theorem connections_below_threshold (mkChance : Int → ChanceGen)
    (nlp : List Nat → NlpDoc) (text : List Nat) (b : TemplateBounds)
    (hsq : b.isSquare = false) (c : Connection)
    (hc : c ∈ (generateConstellation mkChance nlp text b).connections) :
    connDist2 c < connectionThreshold text * connectionThreshold text := by
  unfold generateConstellation at hc
  rw [hsq] at hc
  simp only [Bool.false_eq_true, if_false] at hc
  exact starConnections_dist_lt hc

/-- C5 witness: at a concrete valid chance model, empty NLP output, the
two-character text `"ab"` and story bounds 108×192, the generator places
four coincident stars and connects them; the zero-length connection is
below the threshold 17. -/
theorem connections_below_threshold_witness :
    (⟨108, 192, false⟩ : TemplateBounds).isSquare = false ∧
    ({ x1 := 6, y1 := 78, x2 := 6, y2 := 78, isTextConnection := false } : Connection) ∈
      (generateConstellation (fun _ => midGen) (fun _ => ⟨[], [], []⟩) [97, 98]
        ⟨108, 192, false⟩).connections ∧
    connDist2 { x1 := 6, y1 := 78, x2 := 6, y2 := 78, isTextConnection := false }
      < connectionThreshold [97, 98] * connectionThreshold [97, 98] :=
  ⟨rfl, by decide,
    connections_below_threshold (fun _ => midGen) (fun _ => ⟨[], [], []⟩) [97, 98]
      ⟨108, 192, false⟩ rfl _ (by decide)⟩

end SocialStory
